import Mathlib

/-!
# SkillSync: skill-progress rule engine and voice-interview session controller

Shallow embedding of `src/services/aiSkillService.js`,
`src/services/deepgramVoiceAgent.js`, `src/services/firebaseService.js`, the action
handler of `src/components/skills/AISkillTracker.jsx` and the sign-in navigation and
route guards of `src/pages/LoginPage.jsx`, `src/components/*Route.jsx` and `src/App.jsx`.

JavaScript numbers are taken as exact rationals (`ℚ`); `Math.round`, `Math.floor`
and `Math.min` are the exact functions on them.  Reads of external collaborators
(the profile store, the clock, the streaming connection, the microphone) are
explicit arguments; what the code does to them is returned as a trace of effects.
-/

namespace JS

/-- The function `Math.round`: the nearest integer, a tie going towards +∞. -/
def Math.round (x : ℚ) : ℤ := ⌊x + 1 / 2⌋

/-- The function `Math.floor`. -/
def Math.floor (x : ℚ) : ℤ := ⌊x⌋

/-- The function `Math.min` on two numbers. -/
def Math.min (x y : ℚ) : ℚ := if x ≤ y then x else y

/-- The function `Math.max` on two numbers. -/
def Math.max (x y : ℚ) : ℚ := if x ≤ y then y else x

/-- The integer part of a number, rounding towards zero: the first step of storing a
number into an integer typed array. -/
def truncate (x : ℚ) : ℤ := if 0 ≤ x then ⌊x⌋ else ⌈x⌉

/-- The conversion applied when a number is stored into an `Int16Array`: truncate, then
wrap modulo 2^16 into [-32768, 32767]. -/
def toInt16 (x : ℚ) : ℤ :=
  let n := truncate x
  let m := n % 65536
  if m ≥ 32768 then m - 65536 else m

/-- The expression `v || 0` for a number-or-undefined `v`: `undefined` and `0` are falsy. -/
def orZero : Option ℚ → ℚ
  | some v => if v = 0 then 0 else v
  | none => 0

end JS

namespace AISkillService

open JS

/-- An entry of `skillProgressRules`. -/
structure Rule where
  points : ℚ
  description : String

/-- The table `this.skillProgressRules` built by the constructor. -/
def skillProgressRules : List (String × Rule) :=
  [ ("task_completion", { points := 5, description := "Completed a learning task" }),
    ("project_submission", { points := 15, description := "Submitted a project" }),
    ("challenge_solved", { points := 10, description := "Solved a coding challenge" }),
    ("interview_practice", { points := 8, description := "Practiced interview questions" }),
    ("help_request", { points := 3, description := "Asked for help and learned" }),
    ("research_completed", { points := 6, description := "Completed research task" }),
    ("streak_bonus", { points := 2, description := "Daily learning streak bonus" }) ]

/-- A stored skill: `{ current, target }`. -/
structure SkillRecord where
  current : ℚ
  target : ℚ

/-- The part of the user document that `updateSkillProgress` reads: `userData.skills`,
absent or a map from skill name to record. -/
structure UserData where
  skills : Option (List (String × SkillRecord))

/-- The difficulty names returned by `getDifficultyLevel`. -/
inductive Difficulty
  | Beginner
  | Intermediate
  | Advanced
  | Expert
  deriving DecidableEq, Repr

/-- Source `getDifficultyLevel(currentLevel)`. -/
def getDifficultyLevel (currentLevel : ℚ) : Difficulty :=
  if currentLevel < 30 then Difficulty.Beginner
  else if currentLevel < 60 then Difficulty.Intermediate
  else if currentLevel < 80 then Difficulty.Advanced
  else Difficulty.Expert

/-- Source `calculateProgressIncrease(points, currentLevel)`. -/
def calculateProgressIncrease (points currentLevel : ℚ) : ℤ :=
  let baseIncrease := points * (1 / 2)
  let levelMultiplier : ℚ :=
    if currentLevel < 50 then 12 / 10 else if currentLevel < 80 then 8 / 10 else 5 / 10
  Math.round (baseIncrease * levelMultiplier)

/-- Source `checkLevelUp(oldProgress, newProgress)`. -/
def checkLevelUp (oldProgress newProgress : ℚ) : Bool :=
  let oldLevel := Math.floor (oldProgress / 20)
  let newLevel := Math.floor (newProgress / 20)
  decide (newLevel > oldLevel)

/-- The record `lastSkillUpdate` written with the new level. -/
structure LastSkillUpdate where
  skill : String
  activity : String
  pointsEarned : ℚ
  progressGained : ℤ
  timestamp : String

/-- The argument of `firebaseService.updateUserStats` in `updateSkillProgress`:
the field `skills.<skillName>.current` and `lastSkillUpdate`. -/
structure StatsUpdate where
  skillName : String
  current : ℚ
  lastSkillUpdate : LastSkillUpdate

/-- The object returned by `updateSkillProgress`. -/
structure ProgressResult where
  newProgress : ℚ
  pointsEarned : ℚ
  progressGained : ℤ
  leveledUp : Bool

/-- The expression `currentSkills[skillName] || { current: 0, target: 100 }` with
`currentSkills = userData.skills || {}` (lines 150-151). -/
def skillOf (userData : UserData) (skillName : String) : SkillRecord :=
  let currentSkills := userData.skills.getD []
  (currentSkills.lookup skillName).getD { current := 0, target := 100 }

/-- The expression `(rule?.points || 0) + additionalPoints` with
`rule = this.skillProgressRules[activityType]` (lines 153-154). -/
def pointsToAdd (activityType : String) (additionalPoints : ℚ) : ℚ :=
  let rule := skillProgressRules.lookup activityType
  orZero (rule.map Rule.points) + additionalPoints

/-- Source `updateSkillProgress(userId, skillName, activityType, additionalPoints)`,
on the document `userData` that `getUserStats` returned; `isoNow` is
`new Date().toISOString()`.  The result is the update handed to `updateUserStats`
and the returned object. -/
def updateSkillProgress (userData : UserData) (skillName activityType : String)
    (additionalPoints : ℚ) (isoNow : String) : StatsUpdate × ProgressResult :=
  let skill := skillOf userData skillName
  let points := pointsToAdd activityType additionalPoints
  let progressIncrease := calculateProgressIncrease points skill.current
  let newProgress := Math.min (skill.current + progressIncrease) skill.target
  ({ skillName := skillName
     current := newProgress
     lastSkillUpdate :=
       { skill := skillName, activity := activityType, pointsEarned := points
         progressGained := progressIncrease, timestamp := isoNow } },
   { newProgress := newProgress
     pointsEarned := points
     progressGained := progressIncrease
     leveledUp := checkLevelUp skill.current newProgress })

/-- The `switch` of `handleSkillAction` (AISkillTracker.jsx, lines 21-43): the activity
type and the additional points of an action. -/
def actionActivity (action : String) : String × ℚ :=
  if action = "practice" then ("task_completion", 2)
  else if action = "project" then ("project_submission", 5)
  else if action = "help" then ("help_request", 1)
  else if action = "interview" then ("interview_practice", 3)
  else ("task_completion", 0)

/-- The call of `aiSkillService.updateSkillProgress` made by `handleSkillAction`
(AISkillTracker.jsx, lines 46-51), on the document the service reads. -/
def handleSkillAction (userData : UserData) (skillName action isoNow : String) :
    StatsUpdate × ProgressResult :=
  updateSkillProgress userData skillName (actionActivity action).1 (actionActivity action).2
    isoNow

/-- The percentage printed on the button of an action (AISkillTracker.jsx, lines 132,
140, 147 and 154). -/
def buttonPercent (action : String) : Option ℤ :=
  if action = "practice" then some 5
  else if action = "project" then some 10
  else if action = "help" then some 3
  else if action = "interview" then some 8
  else none

/-- The points table as the specification words it: a fixed value per activity
type, 0 for any other type. -/
def specPoints (activityType : String) : ℚ :=
  if activityType = "task_completion" then 5
  else if activityType = "project_submission" then 15
  else if activityType = "challenge_solved" then 10
  else if activityType = "interview_practice" then 8
  else if activityType = "help_request" then 3
  else if activityType = "research_completed" then 6
  else if activityType = "streak_bonus" then 2
  else 0

/-- The level multiplier as the specification words it. -/
def specMultiplier (currentLevel : ℚ) : ℚ :=
  if currentLevel < 50 then 12 / 10
  else if 50 ≤ currentLevel ∧ currentLevel < 80 then 8 / 10
  else 5 / 10

/-- The progress delta as the specification words it:
`round((P(activityType) + bonusPoints) * 0.5 * m(currentLevel))`. -/
def specDelta (activityType : String) (currentLevel bonusPoints : ℚ) : ℤ :=
  Math.round ((specPoints activityType + bonusPoints) * (1 / 2) * specMultiplier currentLevel)

end AISkillService

namespace DeepgramVoiceAgent

/-- One byte of a `Uint8Array`. -/
abbrev Byte := Fin 256

/-- The contents of a `Uint8Array` or `ArrayBuffer`. -/
abbrev Bytes := List Byte

/-- Identity of a connection object returned by `this.deepgram.agent()`. -/
abbrev ConnId := Nat

/-- Identity of a callback function passed by the caller. -/
abbrev CallbackId := Nat

/-- Identity of an `AudioContext` object. -/
abbrev CtxId := Nat

/-- The object `this.currentInterview = { type, userId, startTime }`. -/
structure Interview where
  type : String
  userId : Option String
  startTime : Int
  deriving DecidableEq, Repr

/-- The fields of the `userData` argument that the prompt and greeting read:
`name`, the keys of `skills` in `Object.keys` order, and `experience`; each may be
missing. -/
structure UserProfile where
  name : Option String
  skills : Option (List String)
  experience : Option String
  deriving DecidableEq, Repr

/-- The fields of the controller object (`this`).  The constructor leaves `userData`,
`interviewType` and `audioContext` undefined. -/
structure Agent where
  connection : Option ConnId
  audioBuffer : Bytes
  isConnected : Bool
  currentInterview : Option Interview
  onMessage : Option CallbackId
  onStatusChange : Option CallbackId
  userData : Option UserProfile
  interviewType : Option String
  audioContext : Option CtxId
  deriving DecidableEq, Repr

/-- The state built by the constructor. -/
def Agent.new : Agent :=
  { connection := none
    audioBuffer := []
    isConnected := false
    currentInterview := none
    onMessage := none
    onStatusChange := none
    userData := none
    interviewType := none
    audioContext := none }

/-- The argument of `onStatusChange`. -/
structure Status where
  isConnected : Bool
  isListening : Bool
  deriving DecidableEq, Repr

/-- The argument of `onMessage`. -/
structure ConversationTurn where
  role : String
  content : String
  timestamp : Int
  deriving DecidableEq, Repr

/-- The payload of a `ConversationText` event. -/
structure ConversationData where
  role : String
  content : String
  deriving DecidableEq, Repr

/-- The argument of `connection.configure`. -/
structure Settings where
  inputEncoding : String
  inputSampleRate : Nat
  outputEncoding : String
  outputSampleRate : Nat
  outputContainer : String
  language : String
  listenProviderType : String
  listenModel : String
  thinkProviderType : String
  thinkModel : String
  prompt : String
  speakProviderType : String
  speakModel : String
  greeting : String
  deriving DecidableEq, Repr

/-- What the controller does to its collaborators, in order. -/
inductive Effect
  | listen (conn : ConnId)
  | configure (conn : ConnId) (settings : Settings)
  | setTimeout (ms : Nat)
  | send (conn : ConnId) (data : Bytes)
  | sendPcm (conn : ConnId) (samples : List Int)
  | statusChange (cb : CallbackId) (status : Status)
  | message (cb : CallbackId) (turn : ConversationTurn)
  | play (data : Bytes)
  | removeAllListeners (conn : ConnId)
  | close (conn : ConnId)
  | closeAudioContext (ctx : CtxId)
  | uncaught (err : String)
  deriving DecidableEq, Repr

/-- How a call ends: it returns a value, it throws, or (an `async` function awaiting a
promise that never settles) it never returns. -/
inductive Outcome (α : Type)
  | returned (value : α)
  | threw (err : String)
  | pending
  deriving DecidableEq, Repr

/-- A finished (or pending) call: how it ended, the controller state it left and the
effects it had. -/
structure Ran (α : Type) where
  outcome : Outcome α
  state : Agent
  effects : List Effect

/-- The events a connection emits (`AgentEvents`); `now` is the reading of `Date.now()`
that the `ConversationText` handler takes. -/
inductive AgentEvent
  | Welcome
  | Open
  | Close
  | ConversationText (data : ConversationData) (now : Int)
  | Audio (data : Bytes)
  | AgentAudioDone
  | Error (err : String)
  deriving DecidableEq, Repr

/-- The expression `Object.keys(userData.skills).join(sep)`. -/
def joinKeys (sep : String) (keys : List String) : String :=
  sep.intercalate keys

/-- The expression `v || fallback` for a string-or-undefined `v`: `undefined` and the
empty string are falsy. -/
def orElse (v : Option String) (fallback : String) : String :=
  match v with
  | some x => if x = "" then fallback else x
  | none => fallback

/-- Source `getInterviewPrompt(type, userData)`; `type` is the property key looked up
in `prompts`, with `prompts.technical` as the fallback (the four own keys of the
object literal are the keys looked up). -/
def getInterviewPrompt (type : String) (userData : Option UserProfile) : String :=
  let skillsList : String :=
    match userData.bind UserProfile.skills with
    | some keys => joinKeys ", " keys
    | none => "various skills"
  let userInfo : String :=
    match userData with
    | some u =>
      "The candidate's name is " ++ orElse u.name "the candidate" ++ ". Their skills include: "
        ++ skillsList ++ ". Their experience level is " ++ orElse u.experience "not specified"
        ++ "."
    | none => ""
  let technical : String :=
    "You are conducting a technical interview. " ++ userInfo
      ++ " Since you already know their skills (" ++ skillsList
      ++ "), start by introducing yourself, then ask specific technical questions about their strongest skill or a challenging project they've worked on. Don't ask them to repeat their background. Keep responses under 25 words."
  let behavioral : String :=
    "You are conducting a behavioral interview. " ++ userInfo
      ++ " Since you know their background, introduce yourself then ask about a specific challenging situation they faced in their work. Don't ask them to repeat their experience. Keep responses brief."
  let hr : String :=
    "You are an HR interviewer. " ++ userInfo
      ++ " Since you know their background, introduce yourself then ask about their motivation for this specific role and career goals. Don't ask them to repeat their experience. Keep responses conversational."
  let systemDesign : String :=
    "You are conducting a system design interview. " ++ userInfo
      ++ " Since you know their skills (" ++ skillsList
      ++ "), introduce yourself then present a system design problem matching their skill level. Don't ask about their background. Guide them through the process."
  if type = "technical" then technical
  else if type = "behavioral" then behavioral
  else if type = "hr" then hr
  else if type = "system-design" then systemDesign
  else technical

/-- Source `getGreeting(type, userData)`. -/
def getGreeting (type : String) (userData : Option UserProfile) : String :=
  let name : String :=
    match userData.bind UserProfile.name with
    | some n => if n = "" then "" else " " ++ n
    | none => ""
  let skills : String :=
    match userData.bind UserProfile.skills with
    | some keys => joinKeys " and " (keys.take 2)
    | none => "your skills"
  let technical : String :=
    "Hello" ++ name ++ "! I'm your technical interviewer. I can see you have experience with "
      ++ skills
      ++ ". Let's dive into a technical challenge - can you walk me through a complex problem you solved using "
      ++ skills ++ "?"
  let behavioral : String :=
    "Hi" ++ name ++ "! I'm conducting your behavioral interview. I see you have " ++ skills
      ++ " in your profile. Can you tell me about a time when you had to learn a new technology quickly under pressure?"
  let hr : String :=
    "Hello" ++ name ++ "! I'm your HR interviewer. Looking at your background with " ++ skills
      ++ ", what drives your passion for technology and where do you see yourself in 3 years?"
  let systemDesign : String :=
    "Hi" ++ name ++ "! I'm your system design interviewer. Given your experience with " ++ skills
      ++ ", let's design a scalable web application. How would you approach building a social media platform?"
  if type = "technical" then technical
  else if type = "behavioral" then behavioral
  else if type = "hr" then hr
  else if type = "system-design" then systemDesign
  else technical

/-- The object passed to `connection.configure` by the `Welcome` listener (lines 42-77);
an undefined `this.interviewType` is the property key `undefined`. -/
def welcomeSettings (s : Agent) : Settings :=
  { inputEncoding := "linear16"
    inputSampleRate := 24000
    outputEncoding := "linear16"
    outputSampleRate := 16000
    outputContainer := "wav"
    language := "en"
    listenProviderType := "deepgram"
    listenModel := "nova-3"
    thinkProviderType := "open_ai"
    thinkModel := "gpt-4o-mini"
    prompt := getInterviewPrompt (s.interviewType.getD "undefined") s.userData
    speakProviderType := "deepgram"
    speakModel := "aura-2-thalia-en"
    greeting := getGreeting (s.interviewType.getD "undefined") s.userData }

/-- The optional call `cb?.(arg)`: one effect when the callback is present.  A callback
is an observer of the controller: it is recorded in the trace and does not raise. -/
def notify (cb : Option CallbackId) (mk : CallbackId → Effect) : List Effect :=
  match cb with
  | some id => [mk id]
  | none => []

/-- Source `handleDeepgramMessage(data)`; `now` is the reading of `Date.now()`. -/
def handleDeepgramMessage (s : Agent) (data : ConversationData) (now : Int) : List Effect :=
  if data.role = "assistant" then
    notify s.onMessage
      (fun cb => Effect.message cb { role := "interviewer", content := data.content, timestamp := now })
  else if data.role = "user" then
    notify s.onMessage
      (fun cb => Effect.message cb { role := "candidate", content := data.content, timestamp := now })
  else []

/-- What one listener run does: the new state, the effects, and what it does to the
promise of `connectToDeepgram` (`resolve()` is `Except.ok ()`, `reject(err)` is
`Except.error err`). -/
structure Fired where
  state : Agent
  effects : List Effect
  settle : Option (Except String Unit)

/-- The listeners registered in `connectToDeepgram` (lines 39-130), run on one event.
With `this.connection` null the `Welcome` listener fails at `this.connection.configure`
before it changes anything. -/
def onEvent (s : Agent) : AgentEvent → Fired
  | AgentEvent.Welcome =>
    match s.connection with
    | some c =>
      { state := { s with isConnected := true }
        effects := [Effect.configure c (welcomeSettings s), Effect.setTimeout 1000]
        settle := some (Except.ok ()) }
    | none =>
      { state := s, effects := [Effect.uncaught "TypeError"], settle := none }
  | AgentEvent.Open => { state := s, effects := [], settle := none }
  | AgentEvent.Close =>
    { state := { s with isConnected := false }
      effects :=
        notify s.onStatusChange
          (fun cb => Effect.statusChange cb { isConnected := false, isListening := false })
      settle := none }
  | AgentEvent.ConversationText data now =>
    { state := s, effects := handleDeepgramMessage s data now, settle := none }
  | AgentEvent.Audio data =>
    { state := { s with audioBuffer := s.audioBuffer ++ data }, effects := [], settle := none }
  | AgentEvent.AgentAudioDone =>
    if s.audioBuffer.length > 0 then
      { state := { s with audioBuffer := [] }, effects := [Effect.play s.audioBuffer]
        settle := none }
    else { state := s, effects := [], settle := none }
  | AgentEvent.Error err => { state := s, effects := [], settle := some (Except.error err) }

/-- The callback given to `setTimeout` by the `Welcome` listener (lines 84-90): a
1024-byte silent buffer is sent when a connection is held. -/
def onGreetingTimer (s : Agent) : List Effect :=
  match s.connection with
  | some c => [Effect.send c (List.replicate 1024 0)]
  | none => []

/-- The wait on the promise of `connectToDeepgram`: the events the connection emits are
handled in order until a listener resolves or rejects; later events are not consumed.
When no event settles the promise the call stays pending. -/
def awaitHandshake (s : Agent) (acc : List Effect) : List AgentEvent → Ran Unit
  | [] => { outcome := Outcome.pending, state := s, effects := acc }
  | e :: rest =>
    match (onEvent s e).settle with
    | some (Except.ok _) =>
      { outcome := Outcome.returned (), state := (onEvent s e).state
        effects := acc ++ (onEvent s e).effects }
    | some (Except.error err) =>
      { outcome := Outcome.threw err, state := (onEvent s e).state
        effects := acc ++ (onEvent s e).effects }
    | none => awaitHandshake (onEvent s e).state (acc ++ (onEvent s e).effects) rest

/-- Source `connectToDeepgram()`.  `agent` is what `this.deepgram.agent()` does (the new
connection, or an error it raises) and `events` what that connection then emits. -/
def connectToDeepgram (s : Agent) (agent : Except String ConnId)
    (events : List AgentEvent) : Ran Unit :=
  match agent with
  | Except.error err => { outcome := Outcome.threw err, state := s, effects := [] }
  | Except.ok c => awaitHandshake { s with connection := some c } [Effect.listen c] events

/-- What the platform does during `setupAudio`: `getUserMedia` (or the `AudioContext`
constructor) raises, a later step raises once `this.audioContext` is assigned, or the
capture graph is built. -/
inductive AudioSetup
  | denied (err : String)
  | failed (ctx : CtxId) (err : String)
  | ready (ctx : CtxId)
  deriving DecidableEq, Repr

/-- Source `setupAudio()`: the `catch` logs and rethrows. -/
def setupAudio (s : Agent) : AudioSetup → Outcome Unit × Agent
  | AudioSetup.denied err => (Outcome.threw err, s)
  | AudioSetup.failed ctx err => (Outcome.threw err, { s with audioContext := some ctx })
  | AudioSetup.ready ctx => (Outcome.returned (), { s with audioContext := some ctx })

/-- What the outside world does during one `startInterview` call: the reading of
`Date.now()`, the result of `this.deepgram.agent()`, the events of the new connection
while the handshake is awaited, and the outcome of the audio setup. -/
structure StartEnv where
  now : Int
  agent : Except String ConnId
  handshake : List AgentEvent
  audio : AudioSetup

/-- Lines 15-19 of `startInterview`: the assignments made before the `try`. -/
def openSession (s : Agent) (type : String) (userId : Option String)
    (onMessage onStatusChange : Option CallbackId) (userData : Option UserProfile)
    (now : Int) : Agent :=
  { s with
    currentInterview := some { type := type, userId := userId, startTime := now }
    onMessage := onMessage
    onStatusChange := onStatusChange
    userData := userData
    interviewType := some type }

/-- Source `startInterview(type, userId, onMessage, onStatusChange, userData)`. -/
def startInterview (s : Agent) (type : String) (userId : Option String)
    (onMessage onStatusChange : Option CallbackId) (userData : Option UserProfile)
    (env : StartEnv) : Ran Bool :=
  let s1 := openSession s type userId onMessage onStatusChange userData env.now
  let connected := connectToDeepgram s1 env.agent env.handshake
  match connected.outcome with
  | Outcome.pending =>
    { outcome := Outcome.pending, state := connected.state, effects := connected.effects }
  | Outcome.threw _ =>
    { outcome := Outcome.returned false, state := connected.state
      effects := connected.effects }
  | Outcome.returned _ =>
    match setupAudio connected.state env.audio with
    | (Outcome.returned _, s2) =>
      { outcome := Outcome.returned true, state := s2
        effects := connected.effects ++
          notify s2.onStatusChange
            (fun cb => Effect.statusChange cb { isConnected := true, isListening := true }) }
    | (_, s2) =>
      { outcome := Outcome.returned false, state := s2, effects := connected.effects }

/-- The object returned by `endInterview`. -/
structure InterviewSummary where
  duration : Int
  type : Option String
  deriving DecidableEq, Repr

/-- What the outside world does during one `endInterview` call: whether
`removeAllListeners`, `close` and `audioContext.close` raise, whether the connection
has a `close` function, and the readings of the clock: `now₁` for the first
`Date.now()` of line 253, `now₂` for the second one, which is evaluated when
`this.currentInterview?.startTime` is falsy. -/
structure EndEnv where
  removeAllListenersRaises : Bool
  closeIsFunction : Bool
  closeRaises : Bool
  audioCloseRaises : Bool
  now₁ : Int
  now₂ : Int

/-- The body of the first `try` of `endInterview` (lines 234-237) on the held
connection: the calls made, and the error that stopped them if one raised. -/
def closeConnection (c : ConnId) (env : EndEnv) : List Effect × Except String Unit :=
  if env.removeAllListenersRaises then
    ([Effect.removeAllListeners c], Except.error "removeAllListeners")
  else if env.closeIsFunction then
    if env.closeRaises then
      ([Effect.removeAllListeners c, Effect.close c], Except.error "close")
    else ([Effect.removeAllListeners c, Effect.close c], Except.ok ())
  else ([Effect.removeAllListeners c], Except.ok ())

/-- The body of the second `try` of `endInterview` (line 246) on the held audio
context. -/
def closeAudio (ctx : CtxId) (env : EndEnv) : List Effect × Except String Unit :=
  if env.audioCloseRaises then ([Effect.closeAudioContext ctx], Except.error "close")
  else ([Effect.closeAudioContext ctx], Except.ok ())

/-- A `try { body } catch (error) { console.log(...) }`: the calls made stay, an error
is swallowed. -/
def swallow (body : List Effect × Except String Unit) : List Effect :=
  match body with
  | (effects, Except.ok _) => effects
  | (effects, Except.error _) => effects

/-- Lines 232-241 of `endInterview`: the connection is released when one is held. -/
def releaseConnection (s : Agent) (env : EndEnv) : List Effect :=
  match s.connection with
  | some c => swallow (closeConnection c env)
  | none => []

/-- Lines 244-250 of `endInterview`: the audio context is closed when one is held. -/
def releaseAudio (s : Agent) (env : EndEnv) : List Effect :=
  match s.audioContext with
  | some ctx => swallow (closeAudio ctx env)
  | none => []

/-- The expression `this.currentInterview?.startTime || Date.now()`: a missing or zero
start time is falsy and the clock is read again. -/
def startTimeOr (s : Agent) (now₂ : Int) : Int :=
  match s.currentInterview with
  | some i => if i.startTime = 0 then now₂ else i.startTime
  | none => now₂

/-- Source `endInterview()`. -/
def endInterview (s : Agent) (env : EndEnv) : Ran InterviewSummary :=
  let summary : InterviewSummary :=
    { duration := env.now₁ - startTimeOr s env.now₂
      type := s.currentInterview.map Interview.type }
  { outcome := Outcome.returned summary
    state := { s with connection := none, currentInterview := none, isConnected := false
                      audioBuffer := [] }
    effects := releaseConnection s env ++ releaseAudio s env }

/-- The events of a connection delivered to the listeners one after the other: the
state they leave and the effects they have, in order. -/
def deliver (s : Agent) : List AgentEvent → Agent × List Effect
  | [] => (s, [])
  | e :: rest =>
    ((deliver (onEvent s e).state rest).1,
     (onEvent s e).effects ++ (deliver (onEvent s e).state rest).2)

/-- The body of the loop of the capture callback (line 173): the value held by
`int16Array[i]` after the assignment, for the sample `x = inputBuffer[i]`. -/
def encodeSample (x : ℚ) : ℤ :=
  JS.toInt16 (JS.Math.max (-32768) (JS.Math.min 32767 (x * 32768)))

/-- The callback `processor.onaudioprocess` installed by `setupAudio` (lines 167-178),
on the samples of channel 0 of the input buffer. -/
def onaudioprocess (s : Agent) (inputBuffer : List ℚ) : List Effect :=
  match s.isConnected, s.connection with
  | true, some c => [Effect.sendPcm c (inputBuffer.map encodeSample)]
  | _, _ => []

/-- The capture encoding as the specification words it:
`round(clamp(x, -1, 1) * 32767)`. -/
def specEncodeSample (x : ℚ) : ℤ :=
  JS.Math.round (JS.Math.max (-1) (JS.Math.min 1 x) * 32767)

/-- One element of an `Int16Array` view: the two bytes it covers, low byte first (the
byte order of the hosts the application runs on), read as a two's-complement 16-bit
integer. -/
def int16At (lo hi : Byte) : ℤ :=
  let u : ℤ := (lo.val : ℤ) + 256 * (hi.val : ℤ)
  if u ≥ 32768 then u - 65536 else u

/-- The elements of `new Int16Array(buffer)` over a buffer of even length. -/
def int16Array : Bytes → List ℤ
  | lo :: hi :: rest => int16At lo hi :: int16Array rest
  | _ => []

/-- Source `playAudio(audioData)`: the channel data handed to the buffer source.  A
buffer of odd length makes the `Int16Array` constructor raise, which the `catch` logs:
nothing is played.  The calls on the audio context are taken to succeed. -/
def playAudio (audioData : Bytes) : Option (List ℚ) :=
  if audioData.length % 2 = 0 then
    some ((int16Array audioData).map (fun (v : ℤ) => (v : ℚ) / 32768))
  else none

/-- Whether an effect is a call of `connection.configure`. -/
def Effect.isConfigure : Effect → Bool
  | Effect.configure _ _ => true
  | _ => false

/-- The object returned by `getStatus`. -/
structure AgentStatus where
  isConnected : Bool
  isActive : Bool
  deriving DecidableEq, Repr

/-- Source `getStatus()`. -/
def getStatus (s : Agent) : AgentStatus :=
  { isConnected := s.isConnected, isActive := s.currentInterview.isSome }

end DeepgramVoiceAgent

namespace FirebaseService

/-- A task stored in the user document; `aiGenerated` and `createdAt` may be missing. -/
structure Task where
  id : Int
  title : String
  type : String
  duration : String
  completed : Bool
  aiGenerated : Option Bool
  createdAt : Option String
  deriving DecidableEq, Repr

/-- A skill stored in the user document; a nested field update can create it without a
target. -/
structure StoredSkill where
  current : ℚ
  target : Option ℚ
  deriving DecidableEq, Repr

/-- The fields of a document of the collection `users` that the service and the route
guards read or write.  `skillsSetup` and `onboardingCompleted` hold the truthiness of
the field (a missing field is falsy). -/
structure UserDoc where
  skillsMastered : Int
  totalSkills : Int
  daysStreak : Int
  interviewsPassed : Int
  jobReadiness : Int
  skills : Option (List (String × StoredSkill))
  tasks : Option (List Task)
  lastActive : String
  skillsSetup : Bool
  onboardingCompleted : Bool
  deriving DecidableEq, Repr

/-- An entry of `this.cache`: `{ data, timestamp }`. -/
structure CacheEntry where
  data : UserDoc
  timestamp : Int
  deriving DecidableEq, Repr

/-- The service object (`this.cache`) together with the remote collection `users`. -/
structure State where
  cache : List (String × CacheEntry)
  db : List (String × UserDoc)
  deriving DecidableEq, Repr

/-- The method `Map.prototype.get`. -/
def mapGet {β : Type} (m : List (String × β)) (key : String) : Option β :=
  m.lookup key

/-- The method `Map.prototype.delete`. -/
def mapDelete {β : Type} (m : List (String × β)) (key : String) : List (String × β) :=
  m.filter (fun p => p.1 != key)

/-- The method `Map.prototype.set`. -/
def mapSet {β : Type} (m : List (String × β)) (key : String) (value : β) :
    List (String × β) :=
  (key, value) :: mapDelete m key

/-- The field `this.cacheTimeout`, in milliseconds. -/
def cacheTimeout : Int := 30000

/-- Source `getCacheKey(userId, type)`. -/
def getCacheKey (userId : String) (type : String) : String :=
  userId ++ "_" ++ type

/-- Source `isValidCache(cacheEntry)`; `now` is the reading of `Date.now()`. -/
def isValidCache (cacheEntry : Option CacheEntry) (now : Int) : Bool :=
  match cacheEntry with
  | some entry => decide (now - entry.timestamp < cacheTimeout)
  | none => false

/-- Which calls on the remote store succeed during one operation; a call that does not
succeed raises. -/
structure Net where
  getDocOk : Bool
  setDocOk : Bool
  updateDocOk : Bool

/-- Source `getOfflineDefaultStats()`; `isoNow` is `new Date().toISOString()`. -/
def getOfflineDefaultStats (isoNow : String) : UserDoc :=
  { skillsMastered := 5
    totalSkills := 20
    daysStreak := 7
    interviewsPassed := 2
    jobReadiness := 65
    skills := some
      [ ("React.js", { current := 75, target := some 90 }),
        ("JavaScript", { current := 85, target := some 95 }),
        ("Node.js", { current := 45, target := some 80 }),
        ("MongoDB", { current := 30, target := some 70 }) ]
    tasks := some
      [ { id := 1, title := "Complete React Hooks Tutorial", type := "video"
          duration := "45 min", completed := false, aiGenerated := none, createdAt := none },
        { id := 2, title := "Build Todo App Project", type := "project"
          duration := "2 hours", completed := false, aiGenerated := none, createdAt := none },
        { id := 3, title := "Practice JavaScript Interview Questions", type := "practice"
          duration := "30 min", completed := true, aiGenerated := none, createdAt := none },
        { id := 4, title := "Apply to 3 Frontend Internships", type := "apply"
          duration := "1 hour", completed := false, aiGenerated := none, createdAt := none } ]
    lastActive := isoNow
    skillsSetup := false
    onboardingCompleted := false }

/-- The document written by `createDefaultUserStats(userId)`. -/
def defaultStats (isoNow : String) : UserDoc :=
  { skillsMastered := 0
    totalSkills := 0
    daysStreak := 1
    interviewsPassed := 0
    jobReadiness := 25
    skills := some []
    tasks := some []
    lastActive := isoNow
    skillsSetup := false
    onboardingCompleted := false }

/-- Lines 52-65 of `getUserStats`: the document is read from the store and cached; a
missing document is created with the default statistics; a store call that raises
gives the offline defaults.  `now` is the reading of `Date.now()` for the cache
entry. -/
def fetchUserStats (st : State) (userId : String) (net : Net) (now : Int)
    (isoNow : String) : UserDoc × State :=
  let cacheKey := getCacheKey userId "stats"
  if net.getDocOk then
    match mapGet st.db userId with
    | some data =>
      (data, { st with cache := mapSet st.cache cacheKey { data := data, timestamp := now } })
    | none =>
      if net.setDocOk then
        (defaultStats isoNow,
          { cache := mapSet st.cache cacheKey { data := defaultStats isoNow, timestamp := now }
            db := mapSet st.db userId (defaultStats isoNow) })
      else (getOfflineDefaultStats isoNow, st)
  else (getOfflineDefaultStats isoNow, st)

/-- Source `getUserStats(userId)`: a cache entry that is still valid at the reading
`now₁` is returned as it is; otherwise the store is asked. -/
def getUserStats (st : State) (userId : String) (net : Net) (now₁ now₂ : Int)
    (isoNow : String) : UserDoc × State :=
  match mapGet st.cache (getCacheKey userId "stats") with
  | some entry =>
    if isValidCache (some entry) now₁ then (entry.data, st)
    else fetchUserStats st userId net now₂ isoNow
  | none => fetchUserStats st userId net now₂ isoNow

/-- The store call `updateDoc(doc(db, 'users', userId), updates)`: the update is applied
to the existing document; the call raises (`none`) when the store cannot be reached or
the document does not exist. -/
def updateDoc (st : State) (userId : String) (updates : UserDoc → UserDoc) (ok : Bool) :
    Option State :=
  if ok then
    match mapGet st.db userId with
    | some data => some { st with db := mapSet st.db userId (updates data) }
    | none => none
  else none

/-- Source `updateUserStats(userId, updates)`: after a successful update the three cache
entries of the user are deleted; a raised error is logged. -/
def updateUserStats (st : State) (userId : String) (updates : UserDoc → UserDoc)
    (net : Net) : State :=
  match updateDoc st userId updates net.updateDocOk with
  | some st' =>
    { st' with
      cache := mapDelete (mapDelete (mapDelete st'.cache (getCacheKey userId "stats"))
        (getCacheKey userId "skills")) (getCacheKey userId "profile") }
  | none => st

/-- Source `incrementStreak(userId)`. -/
def incrementStreak (st : State) (userId : String) (net : Net) (isoNow : String) : State :=
  match updateDoc st userId
      (fun d => { d with daysStreak := d.daysStreak + 1, lastActive := isoNow })
      net.updateDocOk with
  | some st' => st'
  | none => st

/-- The nested field update `skills.<skill>.current = progress`. -/
def setSkillCurrent (skills : Option (List (String × StoredSkill))) (skill : String)
    (progress : ℚ) : Option (List (String × StoredSkill)) :=
  match skills with
  | some m =>
    match mapGet m skill with
    | some r => some (m.map (fun p => if p.1 = skill then (p.1, { r with current := progress }) else p))
    | none => some (m ++ [(skill, { current := progress, target := none })])
  | none => some [(skill, { current := progress, target := none })]

/-- Source `updateSkillProgress(userId, skill, progress)` of the store service. -/
def updateSkillProgress (st : State) (userId skill : String) (progress : ℚ) (net : Net) :
    State :=
  match updateDoc st userId
      (fun d => { d with skills := setSkillCurrent d.skills skill progress })
      net.updateDocOk with
  | some st' => st'
  | none => st

/-- The argument `task` of `addTask`. -/
structure NewTask where
  id : Option Int
  title : String
  type : String
  duration : String
  aiGenerated : Option Bool

/-- Source `addTask(userId, task)`: a missing document makes `userData.tasks` raise. -/
def addTask (st : State) (userId : String) (task : NewTask) (net : Net) (now : Int)
    (isoNow : String) : State :=
  if net.getDocOk then
    match mapGet st.db userId with
    | some userData =>
      let tasks := userData.tasks.getD []
      let pushed := tasks ++
        [{ id := task.id.getD now, title := task.title, type := task.type
           duration := task.duration, completed := false, aiGenerated := task.aiGenerated
           createdAt := some isoNow }]
      match updateDoc st userId (fun d => { d with tasks := some pushed }) net.updateDocOk with
      | some st' => st'
      | none => st
    | none => st
  else st

/-- Source `completeTask(userId, taskId)`: a missing document or a missing `tasks` array
raises, which is logged. -/
def completeTask (st : State) (userId : String) (taskId : Int) (net : Net) : State :=
  if net.getDocOk then
    match mapGet st.db userId with
    | some userData =>
      match userData.tasks with
      | some ts =>
        let tasks := ts.map (fun task => if task.id = taskId then { task with completed := true } else task)
        match updateDoc st userId (fun d => { d with tasks := some tasks }) net.updateDocOk with
        | some st' => st'
        | none => st
      | none => st
    | none => st
  else st

/-- The characters removed by `String.prototype.trim` and matched by the regular
expression class of white space: the white-space and line-terminator code points. -/
def isSpace (c : Char) : Bool :=
  [0x09, 0x0A, 0x0B, 0x0C, 0x0D, 0x20, 0xA0, 0x1680, 0x2028, 0x2029, 0x202F, 0x205F, 0x3000,
    0xFEFF].contains c.toNat || (0x2000 ≤ c.toNat && c.toNat ≤ 0x200A)

/-- The characters matched by the regular expression class of digits: `0` to `9`. -/
def isDigit (c : Char) : Bool := 48 ≤ c.toNat && c.toNat ≤ 57

/-- The method `String.prototype.trim`, on the characters of the string. -/
def trim (cs : List Char) : List Char :=
  ((cs.dropWhile isSpace).reverse.dropWhile isSpace).reverse

/-- The method `String.prototype.split` with a one-character separator, on the
characters of the string: the pieces between the separators, at least one. -/
def splitOn (sep : Char) : List Char → List (List Char)
  | [] => [[]]
  | c :: cs =>
    if c = sep then [] :: splitOn sep cs
    else
      match splitOn sep cs with
      | piece :: pieces => (c :: piece) :: pieces
      | [] => [[c]]

/-- The call `title.replace(/^\d+\.\s*/, '')`: a leading run of digits followed by a
full stop is removed together with the white space after it. -/
def removeNumbering (title : List Char) : List Char :=
  if title.takeWhile isDigit = [] then title
  else
    match title.dropWhile isDigit with
    | c :: rest => if c = '.' then rest.dropWhile isSpace else title
    | [] => title

/-- The body of the `forEach` of `parseAITasks` (lines 142-152) for one line: the task
pushed, if any.  `toLowerCase` is `String.prototype.toLowerCase` and `clock index` the
reading of `Date.now()` when the line of that index is handled. -/
def parseLine (toLowerCase : String → String) (clock : Nat → Int) (index : Nat)
    (line : List Char) : Option Task :=
  match (splitOn '|' line).map trim with
  | title :: type :: duration :: _ =>
    if title ≠ [] ∧ type ≠ [] ∧ duration ≠ [] then
      some
        { id := clock index + index
          title := String.mk (removeNumbering title)
          type := toLowerCase (String.mk type)
          duration := String.mk duration
          completed := false
          aiGenerated := some true
          createdAt := none }
    else none
  | _ => none

/-- The `forEach` of `parseAITasks` over the lines from position `index` on: the tasks
pushed, in order. -/
def collectTasks (toLowerCase : String → String) (clock : Nat → Int) :
    Nat → List (List Char) → List Task
  | _, [] => []
  | index, line :: rest =>
    match parseLine toLowerCase clock index line with
    | some task => task :: collectTasks toLowerCase clock (index + 1) rest
    | none => collectTasks toLowerCase clock (index + 1) rest

/-- Source `getFallbackTasks(userSkills)`; the skills are read and not used. -/
def getFallbackTasks (clock : Nat → Int) : List Task :=
  [ { id := clock 0 + 0, title := "Build a REST API with authentication", type := "project"
      duration := "4-5 hours", completed := false, aiGenerated := some true
      createdAt := none },
    { id := clock 1 + 1, title := "Solve 10 algorithm challenges", type := "practice"
      duration := "2 hours", completed := false, aiGenerated := some true, createdAt := none },
    { id := clock 2 + 2, title := "Create a responsive web dashboard", type := "project"
      duration := "3-4 hours", completed := false, aiGenerated := some true
      createdAt := none },
    { id := clock 3 + 3, title := "Learn advanced debugging techniques", type := "study"
      duration := "1 hour", completed := false, aiGenerated := some true, createdAt := none },
    { id := clock 4 + 4, title := "Practice system design interviews", type := "interview"
      duration := "1.5 hours", completed := false, aiGenerated := some true
      createdAt := none } ]

/-- The lines of the response that contain the separator, the first five of them
(lines 139 and 141 of `parseAITasks`). -/
def candidateLines (response : String) : List (List Char) :=
  ((splitOn (Char.ofNat 10) response.toList).filter (fun line => line.contains '|')).take 5

/-- Source `parseAITasks(response, userSkills)`. -/
def parseAITasks (toLowerCase : String → String) (clock : Nat → Int) (response : String) :
    List Task :=
  let tasks := collectTasks toLowerCase clock 0 (candidateLines response)
  if tasks.length > 0 then tasks else getFallbackTasks clock

end FirebaseService

namespace Routing

open FirebaseService

/-- The paths of `App.jsx` that the sign-in flow and the guards navigate to. -/
inductive Route
  | login
  | onboarding
  | skillSetup
  | dashboard
  deriving DecidableEq, Repr

/-- The truthiness of `userData?.onboardingCompleted`. -/
def onboardingCompleted (userData : Option UserDoc) : Bool :=
  match userData with
  | some d => d.onboardingCompleted
  | none => false

/-- The truthiness of `userData?.skillsSetup`. -/
def skillsSetup (userData : Option UserDoc) : Bool :=
  match userData with
  | some d => d.skillsSetup
  | none => false

/-- The truthiness of `userData?.skills && Object.keys(userData.skills).length > 0`. -/
def hasSkills (userData : Option UserDoc) : Bool :=
  match userData.bind UserDoc.skills with
  | some skills => decide (skills.length > 0)
  | none => false

/-- Source `handleGoogleSignIn` of `LoginPage.jsx`: the path navigated to, if any.
`signIn` is the outcome of `signInWithGoogle()` and `fetched` the outcome of
`firebaseService.getUserStats(user.uid)`. -/
def handleGoogleSignIn (signIn : Except String String)
    (fetched : Except String (Option UserDoc)) : Option Route :=
  match signIn with
  | Except.error _ => none
  | Except.ok _ =>
    match fetched with
    | Except.error _ => some Route.onboarding
    | Except.ok userData =>
      if !onboardingCompleted userData then some Route.onboarding
      else if !skillsSetup userData || !hasSkills userData then some Route.skillSetup
      else some Route.dashboard

/-- Source `ProtectedRoute`: without a signed-in user the login page is navigated to. -/
def ProtectedRoute (currentUser : Option String) : Option Route :=
  match currentUser with
  | some _ => none
  | none => some Route.login

/-- Source `SkillSetupRoute`, once loaded: the redirect it makes, if any.  `needsSetup`
starts false and is set from the fetched document when a user is signed in. -/
def SkillSetupRoute (currentUser : Option String)
    (fetched : Except String (Option UserDoc)) : Option Route :=
  let needsSetup : Bool :=
    match currentUser with
    | some _ =>
      match fetched with
      | Except.ok userData => onboardingCompleted userData && !skillsSetup userData
      | Except.error _ => false
    | none => false
  if needsSetup then some Route.skillSetup else none

/-- Source `SetupCompleteRoute`, once loaded: the redirect it makes, if any. -/
def SetupCompleteRoute (currentUser : Option String)
    (fetched : Except String (Option UserDoc)) : Option Route :=
  let isSetupComplete : Bool :=
    match currentUser with
    | some _ =>
      match fetched with
      | Except.ok userData =>
        onboardingCompleted userData && skillsSetup userData && hasSkills userData
      | Except.error _ => false
    | none => false
  if isSetupComplete then some Route.dashboard else none

/-- The guards that `App.jsx` puts around each page: `ProtectedRoute` outside, then
`SetupCompleteRoute` for `/skill-setup` and `/onboarding` and `SkillSetupRoute` for
`/dashboard`; the login page has none. -/
def routeGuard (route : Route) (currentUser : Option String)
    (fetched : Except String (Option UserDoc)) : Option Route :=
  match route with
  | Route.login => none
  | Route.skillSetup =>
    (ProtectedRoute currentUser).orElse (fun _ => SetupCompleteRoute currentUser fetched)
  | Route.onboarding =>
    (ProtectedRoute currentUser).orElse (fun _ => SetupCompleteRoute currentUser fetched)
  | Route.dashboard =>
    (ProtectedRoute currentUser).orElse (fun _ => SkillSetupRoute currentUser fetched)

end Routing

namespace AISkillService

open JS

theorem lookup_cons_ite {β : Type} (a k : String) (b : β) (es : List (String × β)) :
    List.lookup a ((k, b) :: es) = if a = k then some b else List.lookup a es := by
  by_cases h : a = k
  · subst h
    simp [List.lookup]
  · have hb : (a == k) = false := beq_eq_false_iff_ne.mpr h
    simp [List.lookup, hb, h]

theorem rulePoints_eq_specPoints (activityType : String) :
    orZero ((skillProgressRules.lookup activityType).map Rule.points) = specPoints activityType := by
  unfold specPoints skillProgressRules
  simp only [lookup_cons_ite, List.lookup_nil]
  split_ifs <;> simp [orZero]

theorem round_nonneg {x : ℚ} (h : 0 ≤ x) : 0 ≤ Math.round x := by
  unfold Math.round
  apply Int.floor_nonneg.mpr
  linarith

theorem specPoints_nonneg (activityType : String) : 0 ≤ specPoints activityType := by
  unfold specPoints
  split_ifs <;> norm_num

theorem calculateProgressIncrease_nonneg {points : ℚ} (currentLevel : ℚ) (h : 0 ≤ points) :
    0 ≤ calculateProgressIncrease points currentLevel := by
  unfold calculateProgressIncrease
  apply round_nonneg
  split_ifs <;> nlinarith

theorem min_le_right_js (x y : ℚ) : Math.min x y ≤ y := by
  unfold Math.min
  split_ifs with h
  · exact h
  · exact le_refl y

theorem le_min_js {c x y : ℚ} (hx : c ≤ x) (hy : c ≤ y) : c ≤ Math.min x y := by
  unfold Math.min
  split_ifs <;> assumption

/-- C1: for every activity type, current level and bonus points, the progress delta
that `updateSkillProgress` computes (rule lookup, then `calculateProgressIncrease`)
is `round((P(activityType) + bonusPoints) * 0.5 * m(currentLevel))`, with `P` the
points table (0 for an unknown type) and `m` the level multiplier 1.2 / 0.8 / 0.5;
this is the `progressGained` of every call. -/
theorem C1_progress_delta_formula :
    (∀ (activityType : String) (currentLevel bonusPoints : ℚ),
      calculateProgressIncrease (pointsToAdd activityType bonusPoints) currentLevel
        = specDelta activityType currentLevel bonusPoints) ∧
    (∀ (userData : UserData) (skillName activityType : String) (bonusPoints : ℚ)
        (isoNow : String),
      (updateSkillProgress userData skillName activityType bonusPoints isoNow).2.progressGained
        = specDelta activityType (skillOf userData skillName).current bonusPoints) := by
  have key : ∀ (activityType : String) (currentLevel bonusPoints : ℚ),
      calculateProgressIncrease (pointsToAdd activityType bonusPoints) currentLevel
        = specDelta activityType currentLevel bonusPoints := by
    intro activityType currentLevel bonusPoints
    have hp : pointsToAdd activityType bonusPoints = specPoints activityType + bonusPoints := by
      unfold pointsToAdd
      exact congrArg (· + bonusPoints) (rulePoints_eq_specPoints activityType)
    rw [hp]
    unfold calculateProgressIncrease specDelta specMultiplier
    by_cases h50 : currentLevel < 50
    · simp [h50]
    · have h50le : 50 ≤ currentLevel := not_lt.mp h50
      by_cases h80 : currentLevel < 80
      · simp [h50, h80, h50le]
      · simp [h50, h80]
  refine ⟨key, ?_⟩
  intro userData skillName activityType bonusPoints isoNow
  exact key activityType (skillOf userData skillName).current bonusPoints

/-- C2: for every stored record, activity and bonus, the new level that
`updateSkillProgress` writes and returns, `min(current + delta, target)`, is at most
the record's target; the bound holds for every `current`, `delta` and `target`. -/
theorem C2_new_level_le_target :
    (∀ current delta target : ℚ, Math.min (current + delta) target ≤ target) ∧
    (∀ (userData : UserData) (skillName activityType : String) (bonusPoints : ℚ)
        (isoNow : String),
      (updateSkillProgress userData skillName activityType bonusPoints isoNow).1.current
          ≤ (skillOf userData skillName).target ∧
      (updateSkillProgress userData skillName activityType bonusPoints isoNow).2.newProgress
          ≤ (skillOf userData skillName).target) := by
  refine ⟨fun current delta target => min_le_right_js _ _, ?_⟩
  intro userData skillName activityType bonusPoints isoNow
  exact ⟨min_le_right_js _ _, min_le_right_js _ _⟩

/-- C3 (as stated, refuted): the stored record `{current: 50, target: 30}` has both
fields in [0,100] and the delta of a `task_completion` is 2 ≥ 0, yet the level written
back is 30, below the current 50. -/
theorem C3_counterexample :
    (skillOf { skills := some [("Python", { current := 50, target := 30 })] } "Python").current = 50 ∧
    (skillOf { skills := some [("Python", { current := 50, target := 30 })] } "Python").target = 30 ∧
    (updateSkillProgress { skills := some [("Python", { current := 50, target := 30 })] }
        "Python" "task_completion" 0 "").2.progressGained = 2 ∧
    (updateSkillProgress { skills := some [("Python", { current := 50, target := 30 })] }
        "Python" "task_completion" 0 "").1.current = 30 ∧
    (updateSkillProgress { skills := some [("Python", { current := 50, target := 30 })] }
        "Python" "task_completion" 0 "").1.current
      < (skillOf { skills := some [("Python", { current := 50, target := 30 })] } "Python").current := by
  have hs : skillOf { skills := some [("Python", { current := 50, target := 30 })] } "Python"
      = { current := 50, target := 30 } := by
    simp [skillOf, List.lookup]
  have hp : pointsToAdd "task_completion" 0 = 5 := by
    simp [pointsToAdd, skillProgressRules, List.lookup, orZero]
  have hd : calculateProgressIncrease 5 50 = 2 := by
    simp [calculateProgressIncrease, Math.round]
    norm_num [Int.floor_eq_iff]
  refine ⟨by rw [hs], by rw [hs], ?_, ?_, ?_⟩
  · simp only [updateSkillProgress, hs, hp, hd]
  · simp only [updateSkillProgress, hs, hp, hd, Math.min]
    norm_num
  · simp only [updateSkillProgress, hs, hp, hd, Math.min]
    norm_num

/-- C3 (amended): for every stored record with `current ≤ target` (in particular for
`current` and `target` in [0,100] with `current ≤ target`) and every delta ≥ 0, the new
level `min(current + delta, target)` written by `updateSkillProgress` is never below
`current`. -/
theorem C3_new_level_ge_current_of_le_target
    (userData : UserData) (skillName activityType : String) (bonusPoints : ℚ) (isoNow : String)
    (hle : (skillOf userData skillName).current ≤ (skillOf userData skillName).target)
    (hdelta : 0 ≤ (updateSkillProgress userData skillName activityType bonusPoints
        isoNow).2.progressGained) :
    (skillOf userData skillName).current
      ≤ (updateSkillProgress userData skillName activityType bonusPoints isoNow).1.current := by
  have hd : (0 : ℚ) ≤ ((updateSkillProgress userData skillName activityType bonusPoints
      isoNow).2.progressGained : ℚ) := by exact_mod_cast hdelta
  simp only [updateSkillProgress] at hd ⊢
  exact le_min_js (by linarith) hle

/-- Witness of C3 (amended): the record `{current: 40, target: 90}` and a
`task_completion`, where the level goes from 40 to 43. -/
theorem C3_new_level_ge_current_of_le_target_witness :
    (skillOf { skills := some [("Python", { current := 40, target := 90 })] } "Python").current
      ≤ (updateSkillProgress { skills := some [("Python", { current := 40, target := 90 })] }
          "Python" "task_completion" 0 "").1.current := by
  have hs : skillOf { skills := some [("Python", { current := 40, target := 90 })] } "Python"
      = { current := 40, target := 90 } := by
    simp [skillOf, List.lookup]
  have hp : pointsToAdd "task_completion" 0 = 5 := by
    simp [pointsToAdd, skillProgressRules, List.lookup, orZero]
  have hd : calculateProgressIncrease 5 40 = 3 := by
    simp [calculateProgressIncrease, Math.round]
    norm_num [Int.floor_eq_iff]
  refine C3_new_level_ge_current_of_le_target _ "Python" "task_completion" 0 "" ?_ ?_
  · rw [hs]; norm_num
  · simp only [updateSkillProgress, hs, hp, hd]
    norm_num

/-- C4: for every stored record with integers `0 ≤ current ≤ target ≤ 100` and every
integer `bonusPoints ≥ 0`, the level that `updateSkillProgress` writes back is an
integer `n` with `current ≤ n ≤ target`, hence again within 0..100 and not above the
target. -/
theorem C4_update_preserves_range
    (userData : UserData) (skillName activityType : String) (isoNow : String)
    (current target bonusPoints : ℤ)
    (hc : (skillOf userData skillName).current = current)
    (ht : (skillOf userData skillName).target = target)
    (h0 : 0 ≤ current) (hle : current ≤ target) (h100 : target ≤ 100)
    (hb : 0 ≤ bonusPoints) :
    ∃ n : ℤ,
      (updateSkillProgress userData skillName activityType bonusPoints isoNow).1.current = n ∧
      current ≤ n ∧ n ≤ target ∧ 0 ≤ n ∧ n ≤ 100 := by
  have hpts : (0 : ℚ) ≤ pointsToAdd activityType bonusPoints := by
    unfold pointsToAdd
    have h1 := rulePoints_eq_specPoints activityType
    have h2 := specPoints_nonneg activityType
    have h3 : (0 : ℚ) ≤ (bonusPoints : ℚ) := by exact_mod_cast hb
    simp only [h1]
    linarith
  have hd := calculateProgressIncrease_nonneg (current : ℚ) hpts
  by_cases hcase : current + calculateProgressIncrease (pointsToAdd activityType bonusPoints)
      (current : ℚ) ≤ target
  · refine ⟨current + calculateProgressIncrease (pointsToAdd activityType bonusPoints)
      (current : ℚ), ?_, by omega, hcase, by omega, by omega⟩
    have hq : (current : ℚ) + (calculateProgressIncrease (pointsToAdd activityType bonusPoints)
        (current : ℚ) : ℚ) ≤ (target : ℚ) := by exact_mod_cast hcase
    simp only [updateSkillProgress, hc, ht, Math.min, if_pos hq]
    push_cast
    rfl
  · refine ⟨target, ?_, hle, le_refl _, by omega, h100⟩
    have hq : ¬ ((current : ℚ) + (calculateProgressIncrease (pointsToAdd activityType bonusPoints)
        (current : ℚ) : ℚ) ≤ (target : ℚ)) := by exact_mod_cast hcase
    simp only [updateSkillProgress, hc, ht, Math.min, if_neg hq]

/-- Witness of C4: the record `{current: 40, target: 90}`, a `task_completion` with
bonus 2. -/
theorem C4_update_preserves_range_witness :
    ∃ n : ℤ,
      (updateSkillProgress { skills := some [("Python", { current := 40, target := 90 })] }
        "Python" "task_completion" ((2 : ℤ) : ℚ) "").1.current = n ∧
      (40 : ℤ) ≤ n ∧ n ≤ 90 ∧ 0 ≤ n ∧ n ≤ 100 :=
  C4_update_preserves_range { skills := some [("Python", { current := 40, target := 90 })] }
    "Python" "task_completion" "" 40 90 2
    (by simp [skillOf, List.lookup]) (by simp [skillOf, List.lookup])
    (by decide) (by decide) (by decide) (by decide)

/-- C5: `checkLevelUp(oldValue, newValue)` is true exactly when
`floor(newValue/20) > floor(oldValue/20)`; `checkLevelUp(22, 39)` is false and
`checkLevelUp(19, 20)` is true. -/
theorem C5_checkLevelUp_iff :
    (∀ oldValue newValue : ℚ,
      checkLevelUp oldValue newValue = true ↔ ⌊newValue / 20⌋ > ⌊oldValue / 20⌋) ∧
    checkLevelUp 22 39 = false ∧ checkLevelUp 19 20 = true := by
  refine ⟨?_, ?_, ?_⟩
  · intro oldValue newValue
    simp [checkLevelUp, Math.floor]
  · have h1 : ⌊(22 : ℚ) / 20⌋ = 1 := by norm_num [Int.floor_eq_iff]
    have h2 : ⌊(39 : ℚ) / 20⌋ = 1 := by norm_num [Int.floor_eq_iff]
    simp [checkLevelUp, Math.floor, h1, h2]
  · have h1 : ⌊(19 : ℚ) / 20⌋ = 0 := by norm_num [Int.floor_eq_iff]
    have h2 : ⌊(20 : ℚ) / 20⌋ = 1 := by norm_num [Int.floor_eq_iff]
    simp [checkLevelUp, Math.floor, h1, h2]

/-- C6: `getDifficultyLevel` returns Beginner below 30, Intermediate on [30,60),
Advanced on [60,80) and Expert from 80 on; 29, 30, 79 and 80 give Beginner,
Intermediate, Advanced and Expert. -/
theorem C6_getDifficultyLevel_thresholds :
    (∀ currentLevel : ℚ,
      (currentLevel < 30 → getDifficultyLevel currentLevel = Difficulty.Beginner) ∧
      (30 ≤ currentLevel → currentLevel < 60 →
        getDifficultyLevel currentLevel = Difficulty.Intermediate) ∧
      (60 ≤ currentLevel → currentLevel < 80 →
        getDifficultyLevel currentLevel = Difficulty.Advanced) ∧
      (80 ≤ currentLevel → getDifficultyLevel currentLevel = Difficulty.Expert)) ∧
    getDifficultyLevel 29 = Difficulty.Beginner ∧
    getDifficultyLevel 30 = Difficulty.Intermediate ∧
    getDifficultyLevel 79 = Difficulty.Advanced ∧
    getDifficultyLevel 80 = Difficulty.Expert := by
  have main : ∀ currentLevel : ℚ,
      (currentLevel < 30 → getDifficultyLevel currentLevel = Difficulty.Beginner) ∧
      (30 ≤ currentLevel → currentLevel < 60 →
        getDifficultyLevel currentLevel = Difficulty.Intermediate) ∧
      (60 ≤ currentLevel → currentLevel < 80 →
        getDifficultyLevel currentLevel = Difficulty.Advanced) ∧
      (80 ≤ currentLevel → getDifficultyLevel currentLevel = Difficulty.Expert) := by
    intro currentLevel
    refine ⟨?_, ?_, ?_, ?_⟩
    · intro h
      simp [getDifficultyLevel, h]
    · intro h1 h2
      have : ¬ currentLevel < 30 := not_lt.mpr h1
      simp [getDifficultyLevel, this, h2]
    · intro h1 h2
      have a : ¬ currentLevel < 30 := not_lt.mpr (by linarith)
      have b : ¬ currentLevel < 60 := not_lt.mpr h1
      simp [getDifficultyLevel, a, b, h2]
    · intro h1
      have a : ¬ currentLevel < 30 := not_lt.mpr (by linarith)
      have b : ¬ currentLevel < 60 := not_lt.mpr (by linarith)
      have c : ¬ currentLevel < 80 := not_lt.mpr h1
      simp [getDifficultyLevel, a, b, c]
  refine ⟨main, ?_, ?_, ?_, ?_⟩
  · exact (main 29).1 (by norm_num)
  · exact (main 30).2.1 (by norm_num) (by norm_num)
  · exact (main 79).2.2.1 (by norm_num) (by norm_num)
  · exact (main 80).2.2.2 (by norm_num)

/-- C7: for every activity type, every current level and every `bonusPoints ≥ 0`, the
progress delta computed by `updateSkillProgress` is non-negative. -/
theorem C7_delta_nonneg (activityType : String) (currentLevel bonusPoints : ℚ)
    (hb : 0 ≤ bonusPoints) :
    0 ≤ calculateProgressIncrease (pointsToAdd activityType bonusPoints) currentLevel ∧
    ∀ (userData : UserData) (skillName isoNow : String),
      0 ≤ (updateSkillProgress userData skillName activityType bonusPoints
        isoNow).2.progressGained := by
  have hpts : (0 : ℚ) ≤ pointsToAdd activityType bonusPoints := by
    unfold pointsToAdd
    have h1 := rulePoints_eq_specPoints activityType
    have h2 := specPoints_nonneg activityType
    simp only [h1]
    linarith
  refine ⟨calculateProgressIncrease_nonneg currentLevel hpts, ?_⟩
  intro userData skillName isoNow
  exact calculateProgressIncrease_nonneg _ hpts

/-- Witness of C7: a `help_request` with bonus 1 at level 85. -/
theorem C7_delta_nonneg_witness :
    0 ≤ calculateProgressIncrease (pointsToAdd "help_request" 1) 85 ∧
    ∀ (userData : UserData) (skillName isoNow : String),
      0 ≤ (updateSkillProgress userData skillName "help_request" 1 isoNow).2.progressGained :=
  C7_delta_nonneg "help_request" 85 1 (by norm_num)

theorem round_seven : ∀ currentLevel : ℚ,
    calculateProgressIncrease 7 currentLevel = 4 ∨ calculateProgressIncrease 7 currentLevel = 3 ∨
    calculateProgressIncrease 7 currentLevel = 2 := by
  intro currentLevel
  unfold calculateProgressIncrease Math.round
  by_cases h50 : currentLevel < 50
  · left
    simp only [h50, if_true]
    norm_num [Int.floor_eq_iff]
  · by_cases h80 : currentLevel < 80
    · right; left
      simp only [h50, h80, if_true, if_false]
      norm_num [Int.floor_eq_iff]
    · right; right
      simp only [h50, h80, if_false]
      norm_num [Int.floor_eq_iff]

theorem round_twenty : ∀ currentLevel : ℚ,
    calculateProgressIncrease 20 currentLevel = 12 ∨
    calculateProgressIncrease 20 currentLevel = 8 ∨
    calculateProgressIncrease 20 currentLevel = 5 := by
  intro currentLevel
  unfold calculateProgressIncrease Math.round
  by_cases h50 : currentLevel < 50
  · left
    simp only [h50, if_true]
    norm_num [Int.floor_eq_iff]
  · by_cases h80 : currentLevel < 80
    · right; left
      simp only [h50, h80, if_true, if_false]
      norm_num [Int.floor_eq_iff]
    · right; right
      simp only [h50, h80, if_false]
      norm_num [Int.floor_eq_iff]

theorem round_four : ∀ currentLevel : ℚ,
    calculateProgressIncrease 4 currentLevel = 2 ∨ calculateProgressIncrease 4 currentLevel = 1 := by
  intro currentLevel
  unfold calculateProgressIncrease Math.round
  by_cases h50 : currentLevel < 50
  · left
    simp only [h50, if_true]
    norm_num [Int.floor_eq_iff]
  · by_cases h80 : currentLevel < 80
    · left
      simp only [h50, h80, if_true, if_false]
      norm_num [Int.floor_eq_iff]
    · right
      simp only [h50, h80, if_false]
      norm_num [Int.floor_eq_iff]

theorem round_eleven : ∀ currentLevel : ℚ,
    calculateProgressIncrease 11 currentLevel = 7 ∨
    calculateProgressIncrease 11 currentLevel = 4 ∨
    calculateProgressIncrease 11 currentLevel = 3 := by
  intro currentLevel
  unfold calculateProgressIncrease Math.round
  by_cases h50 : currentLevel < 50
  · left
    simp only [h50, if_true]
    norm_num [Int.floor_eq_iff]
  · by_cases h80 : currentLevel < 80
    · right; left
      simp only [h50, h80, if_true, if_false]
      norm_num [Int.floor_eq_iff]
    · right; right
      simp only [h50, h80, if_false]
      norm_num [Int.floor_eq_iff]

theorem action_points :
    pointsToAdd (actionActivity "practice").1 (actionActivity "practice").2 = 7 ∧
    pointsToAdd (actionActivity "project").1 (actionActivity "project").2 = 20 ∧
    pointsToAdd (actionActivity "help").1 (actionActivity "help").2 = 4 ∧
    pointsToAdd (actionActivity "interview").1 (actionActivity "interview").2 = 11 := by
  refine ⟨?_, ?_, ?_, ?_⟩ <;>
    · simp [actionActivity, pointsToAdd, skillProgressRules, List.lookup, orZero]
      norm_num

/-- C26 (evaluated): the progress gained by an AISkillTracker action is never the
percentage printed on its button.  For every stored skill and level, practice (button
+5%) gains 4, 3 or 2, project (+10%) gains 12, 8 or 5, help (+3%) gains 2 or 1 and
interview (+8%) gains 7, 4 or 3; on a skill `{current: 0, target: 100}` the gains are
4, 12, 2 and 7 and the new levels 4, 12, 2 and 7. -/
theorem C26_button_percent_differs_from_gain :
    (∀ (userData : UserData) (skillName isoNow : String),
      ((handleSkillAction userData skillName "practice" isoNow).2.progressGained = 4 ∨
        (handleSkillAction userData skillName "practice" isoNow).2.progressGained = 3 ∨
        (handleSkillAction userData skillName "practice" isoNow).2.progressGained = 2) ∧
      ((handleSkillAction userData skillName "project" isoNow).2.progressGained = 12 ∨
        (handleSkillAction userData skillName "project" isoNow).2.progressGained = 8 ∨
        (handleSkillAction userData skillName "project" isoNow).2.progressGained = 5) ∧
      ((handleSkillAction userData skillName "help" isoNow).2.progressGained = 2 ∨
        (handleSkillAction userData skillName "help" isoNow).2.progressGained = 1) ∧
      ((handleSkillAction userData skillName "interview" isoNow).2.progressGained = 7 ∨
        (handleSkillAction userData skillName "interview" isoNow).2.progressGained = 4 ∨
        (handleSkillAction userData skillName "interview" isoNow).2.progressGained = 3)) ∧
    buttonPercent "practice" = some 5 ∧ buttonPercent "project" = some 10 ∧
    buttonPercent "help" = some 3 ∧ buttonPercent "interview" = some 8 ∧
    (handleSkillAction { skills := some [("Python", { current := 0, target := 100 })] }
        "Python" "practice" "").2.progressGained = 4 ∧
    (handleSkillAction { skills := some [("Python", { current := 0, target := 100 })] }
        "Python" "practice" "").2.newProgress = 4 ∧
    (handleSkillAction { skills := some [("Python", { current := 0, target := 100 })] }
        "Python" "project" "").2.newProgress = 12 ∧
    (handleSkillAction { skills := some [("Python", { current := 0, target := 100 })] }
        "Python" "help" "").2.newProgress = 2 ∧
    (handleSkillAction { skills := some [("Python", { current := 0, target := 100 })] }
        "Python" "interview" "").2.newProgress = 7 := by
  obtain ⟨p1, p2, p3, p4⟩ := action_points
  have hs : skillOf { skills := some [("Python", { current := 0, target := 100 })] } "Python"
      = { current := 0, target := 100 } := by
    simp [skillOf, List.lookup]
  have e7 : calculateProgressIncrease 7 0 = 4 := by
    simp [calculateProgressIncrease, Math.round]
    norm_num [Int.floor_eq_iff]
  have e20 : calculateProgressIncrease 20 0 = 12 := by
    simp [calculateProgressIncrease, Math.round]
    norm_num [Int.floor_eq_iff]
  have e4 : calculateProgressIncrease 4 0 = 2 := by
    simp [calculateProgressIncrease, Math.round]
    norm_num [Int.floor_eq_iff]
  have e11 : calculateProgressIncrease 11 0 = 7 := by
    simp [calculateProgressIncrease, Math.round]
    norm_num [Int.floor_eq_iff]
  refine ⟨?_, by decide, by decide, by decide, by decide, ?_, ?_, ?_, ?_, ?_⟩
  · intro userData skillName isoNow
    refine ⟨?_, ?_, ?_, ?_⟩
    · simp only [handleSkillAction, updateSkillProgress, p1]
      exact round_seven _
    · simp only [handleSkillAction, updateSkillProgress, p2]
      exact round_twenty _
    · simp only [handleSkillAction, updateSkillProgress, p3]
      exact round_four _
    · simp only [handleSkillAction, updateSkillProgress, p4]
      exact round_eleven _
  · simp only [handleSkillAction, updateSkillProgress, p1, hs, e7]
  · simp only [handleSkillAction, updateSkillProgress, p1, hs, e7, Math.min]
    norm_num
  · simp only [handleSkillAction, updateSkillProgress, p2, hs, e20, Math.min]
    norm_num
  · simp only [handleSkillAction, updateSkillProgress, p3, hs, e4, Math.min]
    norm_num
  · simp only [handleSkillAction, updateSkillProgress, p4, hs, e11, Math.min]
    norm_num

end AISkillService

namespace DeepgramVoiceAgent

/-- The fields of the controller that no listener assigns. -/
theorem onEvent_frame (s : Agent) (e : AgentEvent) :
    (onEvent s e).state.connection = s.connection ∧
    (onEvent s e).state.currentInterview = s.currentInterview ∧
    (onEvent s e).state.onMessage = s.onMessage ∧
    (onEvent s e).state.onStatusChange = s.onStatusChange ∧
    (onEvent s e).state.userData = s.userData ∧
    (onEvent s e).state.interviewType = s.interviewType ∧
    (onEvent s e).state.audioContext = s.audioContext := by
  cases e with
  | Welcome => cases h : s.connection <;> simp [onEvent, h]
  | Open => simp [onEvent]
  | Close => simp [onEvent]
  | ConversationText data now => simp [onEvent]
  | Audio data => simp [onEvent]
  | AgentAudioDone =>
    by_cases h : s.audioBuffer.length > 0 <;> simp [onEvent, h]
  | Error err => simp [onEvent]

theorem awaitHandshake_frame (events : List AgentEvent) :
    ∀ (s : Agent) (acc : List Effect),
      (awaitHandshake s acc events).state.connection = s.connection ∧
      (awaitHandshake s acc events).state.currentInterview = s.currentInterview ∧
      (awaitHandshake s acc events).state.onMessage = s.onMessage ∧
      (awaitHandshake s acc events).state.onStatusChange = s.onStatusChange ∧
      (awaitHandshake s acc events).state.userData = s.userData ∧
      (awaitHandshake s acc events).state.interviewType = s.interviewType ∧
      (awaitHandshake s acc events).state.audioContext = s.audioContext := by
  induction events with
  | nil => intro s acc; simp [awaitHandshake]
  | cons e rest ih =>
    intro s acc
    have hf := onEvent_frame s e
    unfold awaitHandshake
    cases hs : (onEvent s e).settle with
    | none =>
      have h := ih (onEvent s e).state (acc ++ (onEvent s e).effects)
      simp only []
      obtain ⟨h1, h2, h3, h4, h5, h6, h7⟩ := h
      obtain ⟨f1, f2, f3, f4, f5, f6, f7⟩ := hf
      exact ⟨h1.trans f1, h2.trans f2, h3.trans f3, h4.trans f4, h5.trans f5, h6.trans f6,
        h7.trans f7⟩
    | some r =>
      cases r with
      | ok u => exact hf
      | error err => exact hf

theorem awaitHandshake_settles (events : List AgentEvent) :
    ∀ (s : Agent) (acc : List Effect), s.connection.isSome = true →
      (∃ e ∈ events, e = AgentEvent.Welcome ∨ ∃ err, e = AgentEvent.Error err) →
      (awaitHandshake s acc events).outcome ≠ Outcome.pending := by
  induction events with
  | nil => intro s acc _ h; simp at h
  | cons e rest ih =>
    intro s acc hc hex
    unfold awaitHandshake
    cases hs : (onEvent s e).settle with
    | some r => cases r <;> simp
    | none =>
      simp only []
      apply ih
      · rw [(onEvent_frame s e).1]; exact hc
      · obtain ⟨e', hmem, hsettle⟩ := hex
        rcases List.mem_cons.mp hmem with heq | hrest
        · subst heq
          exfalso
          rcases hsettle with hw | ⟨err, herr⟩
          · subst hw
            cases hcon : s.connection with
            | none => simp [hcon] at hc
            | some c => simp [onEvent, hcon] at hs
          · subst herr
            simp [onEvent] at hs
        · exact ⟨e', hrest, hsettle⟩

theorem setupAudio_frame (s : Agent) (a : AudioSetup) :
    (setupAudio s a).2.onStatusChange = s.onStatusChange ∧
    (setupAudio s a).2.connection = s.connection ∧
    (setupAudio s a).2.currentInterview = s.currentInterview ∧
    (setupAudio s a).2.onMessage = s.onMessage ∧
    (setupAudio s a).2.userData = s.userData ∧
    (setupAudio s a).2.isConnected = s.isConnected := by
  cases a <;> simp [setupAudio]

theorem connectToDeepgram_onStatusChange (s : Agent) (agent : Except String ConnId)
    (events : List AgentEvent) :
    (connectToDeepgram s agent events).state.onStatusChange = s.onStatusChange := by
  cases agent with
  | error err => rfl
  | ok c =>
    simp only [connectToDeepgram]
    exact (awaitHandshake_frame events _ _).2.2.2.1

/-- C8: `startInterview` never throws.  Whenever the handshake (`connectToDeepgram`) or
the microphone setup (`setupAudio`) raises, it returns `false`; when both succeed it
returns `true` and the last thing it did is to notify `onStatusChange` with
`{isConnected: true, isListening: true}`; and it does return once the connection has
emitted a `Welcome` or an `Error` event. -/
theorem C8_startInterview_never_throws (s : Agent) (type : String) (userId : Option String)
    (onMessage onStatusChange : Option CallbackId) (userData : Option UserProfile)
    (env : StartEnv) :
    let connected :=
      connectToDeepgram (openSession s type userId onMessage onStatusChange userData env.now)
        env.agent env.handshake
    let r := startInterview s type userId onMessage onStatusChange userData env
    (∀ err, r.outcome ≠ Outcome.threw err) ∧
    (∀ err, connected.outcome = Outcome.threw err → r.outcome = Outcome.returned false) ∧
    (∀ err, connected.outcome = Outcome.returned () →
      (setupAudio connected.state env.audio).1 = Outcome.threw err →
      r.outcome = Outcome.returned false) ∧
    (connected.outcome = Outcome.returned () →
      (setupAudio connected.state env.audio).1 = Outcome.returned () →
      r.outcome = Outcome.returned true ∧
      r.effects = connected.effects ++
        notify onStatusChange
          (fun cb => Effect.statusChange cb { isConnected := true, isListening := true })) ∧
    ((∃ e ∈ env.handshake, e = AgentEvent.Welcome ∨ ∃ err, e = AgentEvent.Error err) →
      ∃ b, r.outcome = Outcome.returned b) := by
  intro connected r
  have hcb : connected.state.onStatusChange = onStatusChange :=
    connectToDeepgram_onStatusChange _ _ _
  have hr : r = startInterview s type userId onMessage onStatusChange userData env := rfl
  have hshape : ∀ b, r.outcome = Outcome.returned b ∨ r.outcome = Outcome.pending →
      ∀ err, r.outcome ≠ Outcome.threw err := by
    intro b h err hne
    rcases h with h | h <;> rw [h] at hne <;> cases hne
  cases hout : connected.outcome with
  | pending =>
    have hro : r.outcome = Outcome.pending := by
      simp only [hr, startInterview]
      rw [show (connectToDeepgram (openSession s type userId onMessage onStatusChange userData
        env.now) env.agent env.handshake).outcome = Outcome.pending from hout]
    refine ⟨hshape false (Or.inr hro), ?_, ?_, ?_, ?_⟩
    · intro err h; cases h
    · intro err h; cases h
    · intro h; cases h
    · intro hex
      exfalso
      cases hag : env.agent with
      | error e =>
        have : connected.outcome = Outcome.threw e := by
          simp only [connected, connectToDeepgram, hag]
        rw [hout] at this
        cases this
      | ok c =>
        have hne := awaitHandshake_settles env.handshake
          { openSession s type userId onMessage onStatusChange userData env.now with
            connection := some c } [Effect.listen c] rfl hex
        apply hne
        have : connected.outcome = (awaitHandshake
          { openSession s type userId onMessage onStatusChange userData env.now with
            connection := some c } [Effect.listen c] env.handshake).outcome := by
          simp only [connected, connectToDeepgram, hag]
        rw [← this]
        exact hout
  | threw e =>
    have hro : r.outcome = Outcome.returned false := by
      simp only [hr, startInterview]
      rw [show (connectToDeepgram (openSession s type userId onMessage onStatusChange userData
        env.now) env.agent env.handshake).outcome = Outcome.threw e from hout]
    refine ⟨hshape false (Or.inl hro), ?_, ?_, ?_, ?_⟩
    · intro err _; exact hro
    · intro err h; cases h
    · intro h; cases h
    · intro _; exact ⟨false, hro⟩
  | returned u =>
    cases haud : env.audio with
    | denied e2 =>
      have hro : r.outcome = Outcome.returned false := by
        simp only [hr, startInterview]
        rw [show (connectToDeepgram (openSession s type userId onMessage onStatusChange userData
          env.now) env.agent env.handshake).outcome = Outcome.returned u from hout]
        simp only [haud, setupAudio]
      refine ⟨hshape false (Or.inl hro), ?_, ?_, ?_, ?_⟩
      · intro err h; cases h
      · intro err _ _; exact hro
      · intro _ h; simp [setupAudio] at h
      · intro _; exact ⟨false, hro⟩
    | failed ctx e2 =>
      have hro : r.outcome = Outcome.returned false := by
        simp only [hr, startInterview]
        rw [show (connectToDeepgram (openSession s type userId onMessage onStatusChange userData
          env.now) env.agent env.handshake).outcome = Outcome.returned u from hout]
        simp only [haud, setupAudio]
      refine ⟨hshape false (Or.inl hro), ?_, ?_, ?_, ?_⟩
      · intro err h; cases h
      · intro err _ _; exact hro
      · intro _ h; simp [setupAudio] at h
      · intro _; exact ⟨false, hro⟩
    | ready ctx =>
      have hro : r.outcome = Outcome.returned true := by
        simp only [hr, startInterview]
        rw [show (connectToDeepgram (openSession s type userId onMessage onStatusChange userData
          env.now) env.agent env.handshake).outcome = Outcome.returned u from hout]
        simp only [haud, setupAudio]
      have hre : r.effects = connected.effects ++
          notify onStatusChange
            (fun cb => Effect.statusChange cb { isConnected := true, isListening := true }) := by
        simp only [hr, startInterview]
        rw [show (connectToDeepgram (openSession s type userId onMessage onStatusChange userData
          env.now) env.agent env.handshake).outcome = Outcome.returned u from hout]
        simp only [haud, setupAudio]
        rw [show (connectToDeepgram (openSession s type userId onMessage onStatusChange userData
          env.now) env.agent env.handshake).state.onStatusChange = onStatusChange from hcb]
      refine ⟨hshape true (Or.inl hro), ?_, ?_, ?_, ?_⟩
      · intro err h; cases h
      · intro err _ h; simp [setupAudio] at h
      · intro _ _; exact ⟨hro, hre⟩
      · intro _; exact ⟨true, hro⟩

/-- Witness of C8: on a new controller, a handshake answered by `Open`, `Welcome` and a
granted microphone give `true` with the status notification last; a handshake answered
by `Error` gives `false`; a denied microphone after a good handshake gives `false`. -/
theorem C8_startInterview_never_throws_witness :
    ((startInterview Agent.new "technical" (some "u1") (some 1) (some 2) none
        { now := 1000, agent := Except.ok 1
          handshake := [AgentEvent.Open, AgentEvent.Welcome]
          audio := AudioSetup.ready 7 }).outcome = Outcome.returned true ∧
      (startInterview Agent.new "technical" (some "u1") (some 1) (some 2) none
        { now := 1000, agent := Except.ok 1
          handshake := [AgentEvent.Open, AgentEvent.Welcome]
          audio := AudioSetup.ready 7 }).effects =
        (connectToDeepgram (openSession Agent.new "technical" (some "u1") (some 1) (some 2) none
          1000) (Except.ok 1) [AgentEvent.Open, AgentEvent.Welcome]).effects ++
        [Effect.statusChange 2 { isConnected := true, isListening := true }]) ∧
    (startInterview Agent.new "technical" (some "u1") (some 1) (some 2) none
        { now := 1000, agent := Except.ok 1
          handshake := [AgentEvent.Open, AgentEvent.Error "refused"]
          audio := AudioSetup.ready 7 }).outcome = Outcome.returned false ∧
    (startInterview Agent.new "technical" (some "u1") (some 1) (some 2) none
        { now := 1000, agent := Except.ok 1
          handshake := [AgentEvent.Welcome]
          audio := AudioSetup.denied "NotAllowedError" }).outcome = Outcome.returned false :=
  ⟨(C8_startInterview_never_throws Agent.new "technical" (some "u1") (some 1) (some 2) none
      { now := 1000, agent := Except.ok 1
        handshake := [AgentEvent.Open, AgentEvent.Welcome]
        audio := AudioSetup.ready 7 }).2.2.2.1 rfl rfl,
   (C8_startInterview_never_throws Agent.new "technical" (some "u1") (some 1) (some 2) none
      { now := 1000, agent := Except.ok 1
        handshake := [AgentEvent.Open, AgentEvent.Error "refused"]
        audio := AudioSetup.ready 7 }).2.1 "refused" rfl,
   (C8_startInterview_never_throws Agent.new "technical" (some "u1") (some 1) (some 2) none
      { now := 1000, agent := Except.ok 1
        handshake := [AgentEvent.Welcome]
        audio := AudioSetup.denied "NotAllowedError" }).2.2.1 "NotAllowedError" rfl rfl⟩

/-- C9 (as stated, refuted): a first `startInterview` makes the controller active
(connected, with a current interview); a second `startInterview` on that active
controller returns `true`, not `false`, and replaces the current interview, the
connection and both callbacks of the existing session. -/
theorem C9_counterexample :
    getStatus (startInterview Agent.new "technical" (some "u1") (some 1) (some 2) none
        { now := 1000, agent := Except.ok 1, handshake := [AgentEvent.Welcome]
          audio := AudioSetup.ready 7 }).state
      = { isConnected := true, isActive := true } ∧
    (startInterview
        (startInterview Agent.new "technical" (some "u1") (some 1) (some 2) none
          { now := 1000, agent := Except.ok 1, handshake := [AgentEvent.Welcome]
            audio := AudioSetup.ready 7 }).state
        "hr" (some "u1") (some 3) (some 4) none
        { now := 2000, agent := Except.ok 5, handshake := [AgentEvent.Welcome]
          audio := AudioSetup.ready 8 }).outcome = Outcome.returned true ∧
    (startInterview
        (startInterview Agent.new "technical" (some "u1") (some 1) (some 2) none
          { now := 1000, agent := Except.ok 1, handshake := [AgentEvent.Welcome]
            audio := AudioSetup.ready 7 }).state
        "hr" (some "u1") (some 3) (some 4) none
        { now := 2000, agent := Except.ok 5, handshake := [AgentEvent.Welcome]
          audio := AudioSetup.ready 8 }).state
      = { connection := some 5, audioBuffer := [], isConnected := true
          currentInterview := some { type := "hr", userId := some "u1", startTime := 2000 }
          onMessage := some 3, onStatusChange := some 4, userData := none
          interviewType := some "hr", audioContext := some 8 } ∧
    (startInterview Agent.new "technical" (some "u1") (some 1) (some 2) none
        { now := 1000, agent := Except.ok 1, handshake := [AgentEvent.Welcome]
          audio := AudioSetup.ready 7 }).state
      = { connection := some 1, audioBuffer := [], isConnected := true
          currentInterview :=
            some { type := "technical", userId := some "u1", startTime := 1000 }
          onMessage := some 1, onStatusChange := some 2, userData := none
          interviewType := some "technical", audioContext := some 7 } := by
  refine ⟨rfl, rfl, rfl, rfl⟩

/-- C9 (amended): a `startInterview` call on a controller whose session is already
active is not rejected.  It overwrites the current interview, both callbacks, the
profile and (once `this.deepgram.agent()` has returned the new connection) the
connection with those of the new call, and it returns `true` exactly when the new
handshake and the new microphone setup both succeed. -/
theorem C9_startInterview_replaces_session (s : Agent) (type : String)
    (userId : Option String) (onMessage onStatusChange : Option CallbackId)
    (userData : Option UserProfile) (env : StartEnv) (c : ConnId)
    (_hactive : getStatus s = { isConnected := true, isActive := true })
    (hagent : env.agent = Except.ok c) :
    let connected :=
      connectToDeepgram (openSession s type userId onMessage onStatusChange userData env.now)
        env.agent env.handshake
    let r := startInterview s type userId onMessage onStatusChange userData env
    r.state.currentInterview = some { type := type, userId := userId, startTime := env.now } ∧
    r.state.onMessage = onMessage ∧
    r.state.onStatusChange = onStatusChange ∧
    r.state.userData = userData ∧
    r.state.connection = some c ∧
    (r.outcome = Outcome.returned true ↔
      connected.outcome = Outcome.returned () ∧
      (setupAudio connected.state env.audio).1 = Outcome.returned ()) := by
  intro connected r
  have hr : r = startInterview s type userId onMessage onStatusChange userData env := rfl
  have hconn : connected = awaitHandshake
      { openSession s type userId onMessage onStatusChange userData env.now with
        connection := some c } [Effect.listen c] env.handshake := by
    simp only [connected, connectToDeepgram, hagent]
  have hf := awaitHandshake_frame env.handshake
      { openSession s type userId onMessage onStatusChange userData env.now with
        connection := some c } [Effect.listen c]
  rw [← hconn] at hf
  obtain ⟨f1, f2, f3, f4, f5, _, _⟩ := hf
  simp only [openSession] at f1 f2 f3 f4 f5
  have ha := setupAudio_frame connected.state env.audio
  obtain ⟨a1, a2, a3, a4, a5, _⟩ := ha
  cases hout : connected.outcome with
  | pending =>
    have hst : r.state = connected.state := by
      simp only [hr, startInterview]
      rw [show (connectToDeepgram (openSession s type userId onMessage onStatusChange userData
        env.now) env.agent env.handshake).outcome = Outcome.pending from hout]
    have hro : r.outcome = Outcome.pending := by
      simp only [hr, startInterview]
      rw [show (connectToDeepgram (openSession s type userId onMessage onStatusChange userData
        env.now) env.agent env.handshake).outcome = Outcome.pending from hout]
    rw [hst, hro]
    refine ⟨f2, f3, f4, f5, f1, ?_⟩
    constructor
    · intro h; cases h
    · intro h; cases h.1
  | threw e =>
    have hst : r.state = connected.state := by
      simp only [hr, startInterview]
      rw [show (connectToDeepgram (openSession s type userId onMessage onStatusChange userData
        env.now) env.agent env.handshake).outcome = Outcome.threw e from hout]
    have hro : r.outcome = Outcome.returned false := by
      simp only [hr, startInterview]
      rw [show (connectToDeepgram (openSession s type userId onMessage onStatusChange userData
        env.now) env.agent env.handshake).outcome = Outcome.threw e from hout]
    rw [hst, hro]
    refine ⟨f2, f3, f4, f5, f1, ?_⟩
    constructor
    · intro h; cases h
    · intro h; cases h.1
  | returned u =>
    have hst : r.state = (setupAudio connected.state env.audio).2 := by
      simp only [hr, startInterview]
      rw [show (connectToDeepgram (openSession s type userId onMessage onStatusChange userData
        env.now) env.agent env.handshake).outcome = Outcome.returned u from hout]
      cases env.audio <;> rfl
    have hro : r.outcome = Outcome.returned true ↔
        (setupAudio connected.state env.audio).1 = Outcome.returned () := by
      simp only [hr, startInterview]
      rw [show (connectToDeepgram (openSession s type userId onMessage onStatusChange userData
        env.now) env.agent env.handshake).outcome = Outcome.returned u from hout]
      cases env.audio <;> simp [setupAudio]
    rw [hst]
    refine ⟨a3.trans f2, a4.trans f3, a1.trans f4, a5.trans f5, a2.trans f1, ?_⟩
    rw [hro]
    simp

/-- Witness of C9 (amended): the active controller left by a first successful call,
called again for an `hr` interview. -/
theorem C9_startInterview_replaces_session_witness :
    (startInterview
        (startInterview Agent.new "technical" (some "u1") (some 1) (some 2) none
          { now := 1000, agent := Except.ok 1, handshake := [AgentEvent.Welcome]
            audio := AudioSetup.ready 7 }).state
        "hr" (some "u1") (some 3) (some 4) none
        { now := 2000, agent := Except.ok 5, handshake := [AgentEvent.Welcome]
          audio := AudioSetup.ready 8 }).state.currentInterview
      = some { type := "hr", userId := some "u1", startTime := 2000 } :=
  (C9_startInterview_replaces_session
    (startInterview Agent.new "technical" (some "u1") (some 1) (some 2) none
      { now := 1000, agent := Except.ok 1, handshake := [AgentEvent.Welcome]
        audio := AudioSetup.ready 7 }).state
    "hr" (some "u1") (some 3) (some 4) none
    { now := 2000, agent := Except.ok 5, handshake := [AgentEvent.Welcome]
      audio := AudioSetup.ready 8 } 5 rfl rfl).1

/-- C10 (evaluated): `endInterview` on a controller on which `startInterview` was never
called does not throw and returns a summary whose duration is the first clock reading
minus the second one; with the readings 1000 and 1001 of a clock that ticks between
them the duration is −1, not 0. -/
theorem C10_endInterview_idle_duration :
    (∀ env : EndEnv,
      (endInterview Agent.new env).outcome
        = Outcome.returned { duration := env.now₁ - env.now₂, type := none }) ∧
    (endInterview Agent.new
        { removeAllListenersRaises := false, closeIsFunction := true, closeRaises := false
          audioCloseRaises := false, now₁ := 1000, now₂ := 1001 }).outcome
      = Outcome.returned { duration := -1, type := none } := by
  refine ⟨fun env => rfl, rfl⟩

theorem deliver_frame (events : List AgentEvent) :
    ∀ s : Agent,
      (deliver s events).1.connection = s.connection ∧
      (deliver s events).1.currentInterview = s.currentInterview ∧
      (deliver s events).1.onMessage = s.onMessage ∧
      (deliver s events).1.onStatusChange = s.onStatusChange := by
  induction events with
  | nil => intro s; simp [deliver]
  | cons e rest ih =>
    intro s
    obtain ⟨h1, h2, h3, h4⟩ := ih (onEvent s e).state
    obtain ⟨f1, f2, f3, f4, _, _, _⟩ := onEvent_frame s e
    simp only [deliver]
    exact ⟨h1.trans f1, h2.trans f2, h3.trans f3, h4.trans f4⟩

theorem connectToDeepgram_currentInterview (s : Agent) (agent : Except String ConnId)
    (events : List AgentEvent) :
    (connectToDeepgram s agent events).state.currentInterview = s.currentInterview := by
  cases agent with
  | error err => rfl
  | ok c =>
    simp only [connectToDeepgram]
    exact (awaitHandshake_frame events _ _).2.1

theorem startInterview_state_cases (s : Agent) (type : String) (userId : Option String)
    (onMessage onStatusChange : Option CallbackId) (userData : Option UserProfile)
    (env : StartEnv) :
    (startInterview s type userId onMessage onStatusChange userData env).state
        = (connectToDeepgram (openSession s type userId onMessage onStatusChange userData
            env.now) env.agent env.handshake).state ∨
    (startInterview s type userId onMessage onStatusChange userData env).state
        = (setupAudio (connectToDeepgram (openSession s type userId onMessage onStatusChange
            userData env.now) env.agent env.handshake).state env.audio).2 := by
  simp only [startInterview]
  cases (connectToDeepgram (openSession s type userId onMessage onStatusChange userData
      env.now) env.agent env.handshake).outcome with
  | pending => exact Or.inl rfl
  | threw e => exact Or.inl rfl
  | returned u =>
    right
    cases env.audio <;> rfl

theorem startInterview_currentInterview (s : Agent) (type : String) (userId : Option String)
    (onMessage onStatusChange : Option CallbackId) (userData : Option UserProfile)
    (env : StartEnv) :
    (startInterview s type userId onMessage onStatusChange userData env).state.currentInterview
      = some { type := type, userId := userId, startTime := env.now } := by
  have hc := connectToDeepgram_currentInterview
    (openSession s type userId onMessage onStatusChange userData env.now) env.agent env.handshake
  rcases startInterview_state_cases s type userId onMessage onStatusChange userData env
    with h | h
  · rw [h, hc]; rfl
  · rw [h, (setupAudio_frame _ _).2.2.1, hc]; rfl

/-- C11: for every interview type `T`, when `startInterview(T, ...)` is called at clock
time `t0` (a reading of `Date.now()`, hence positive) and `endInterview` is then called
at clock time `t1`, whatever the connection emitted in between, the summary returned
has `type = T` and `duration = t1 - t0`, which is positive when the clock has
advanced. -/
theorem C11_summary_echoes_type_and_duration (s : Agent) (type : String)
    (userId : Option String) (onMessage onStatusChange : Option CallbackId)
    (userData : Option UserProfile) (env : StartEnv) (events : List AgentEvent)
    (endEnv : EndEnv) (hclock : 0 < env.now) :
    (endInterview
        (deliver (startInterview s type userId onMessage onStatusChange userData env).state
          events).1 endEnv).outcome
      = Outcome.returned { duration := endEnv.now₁ - env.now, type := some type } ∧
    (env.now < endEnv.now₁ → 0 < endEnv.now₁ - env.now) := by
  have hcur : (deliver (startInterview s type userId onMessage onStatusChange userData
      env).state events).1.currentInterview
      = some { type := type, userId := userId, startTime := env.now } := by
    rw [(deliver_frame events _).2.1]
    exact startInterview_currentInterview s type userId onMessage onStatusChange userData env
  have hne : env.now ≠ 0 := by omega
  refine ⟨?_, fun h => by omega⟩
  simp only [endInterview, startTimeOr, hcur, Option.map, if_neg hne]

/-- Witness of C11: a technical interview started at 1000 and ended at 61000, with a
transcript event in between: duration 60000, type `technical`. -/
theorem C11_summary_echoes_type_and_duration_witness :
    (endInterview
        (deliver (startInterview Agent.new "technical" (some "u1") (some 1) (some 2) none
            { now := 1000, agent := Except.ok 1, handshake := [AgentEvent.Welcome]
              audio := AudioSetup.ready 7 }).state
          [AgentEvent.ConversationText { role := "user", content := "hi" } 2000]).1
        { removeAllListenersRaises := false, closeIsFunction := true, closeRaises := false
          audioCloseRaises := false, now₁ := 61000, now₂ := 61000 }).outcome
      = Outcome.returned { duration := 61000 - 1000, type := some "technical" } ∧
    ((1000 : Int) < 61000 → (0 : Int) < 61000 - 1000) :=
  C11_summary_echoes_type_and_duration Agent.new "technical" (some "u1") (some 1) (some 2) none
    { now := 1000, agent := Except.ok 1, handshake := [AgentEvent.Welcome]
      audio := AudioSetup.ready 7 }
    [AgentEvent.ConversationText { role := "user", content := "hi" } 2000]
    { removeAllListenersRaises := false, closeIsFunction := true, closeRaises := false
      audioCloseRaises := false, now₁ := 61000, now₂ := 61000 } (by decide)

/-- C12: from every controller state, `endInterview` returns and leaves the controller
idle: `connection` and `currentInterview` are null, `isConnected` is false, the audio
accumulation buffer is empty, and `getStatus()` reports
`{isConnected: false, isActive: false}`. -/
theorem C12_endInterview_leaves_idle (s : Agent) (env : EndEnv) :
    (∃ summary, (endInterview s env).outcome = Outcome.returned summary) ∧
    (endInterview s env).state.connection = none ∧
    (endInterview s env).state.currentInterview = none ∧
    (endInterview s env).state.isConnected = false ∧
    (endInterview s env).state.audioBuffer = [] ∧
    getStatus (endInterview s env).state = { isConnected := false, isActive := false } := by
  refine ⟨⟨_, rfl⟩, rfl, rfl, rfl, rfl, rfl⟩

/-- C13: `endInterview` never raises.  For every controller state and whatever
`removeAllListeners`, `close` and the audio context's `close` do (raise or not), the
call returns its summary and the state is reset; the same holds for a second
consecutive call.  The raising cases are real: with a held connection whose
`removeAllListeners` raises, the body of the `try` ends in an error, which is
swallowed. -/
theorem C13_endInterview_never_raises (s : Agent) (env env2 : EndEnv) :
    (∀ err, (endInterview s env).outcome ≠ Outcome.threw err) ∧
    (endInterview s env).outcome
      = Outcome.returned { duration := env.now₁ - startTimeOr s env.now₂
                           type := s.currentInterview.map Interview.type } ∧
    (endInterview s env).state
      = { s with connection := none, currentInterview := none, isConnected := false
                 audioBuffer := [] } ∧
    (∀ err, (endInterview (endInterview s env).state env2).outcome ≠ Outcome.threw err) ∧
    (endInterview (endInterview s env).state env2).outcome
      = Outcome.returned { duration := env2.now₁ - env2.now₂, type := none } ∧
    (endInterview (endInterview s env).state env2).state = (endInterview s env).state ∧
    (∀ c, env.removeAllListenersRaises = true →
      (closeConnection c env).2 = Except.error "removeAllListeners") ∧
    (∀ c, env.removeAllListenersRaises = false → env.closeIsFunction = true →
      env.closeRaises = true → (closeConnection c env).2 = Except.error "close") ∧
    (∀ ctx, env.audioCloseRaises = true → (closeAudio ctx env).2 = Except.error "close") := by
  refine ⟨?_, rfl, rfl, ?_, rfl, rfl, ?_, ?_, ?_⟩
  · intro err h; cases h
  · intro err h; cases h
  · intro c h; simp [closeConnection, h]
  · intro c h1 h2 h3; simp [closeConnection, h1, h2, h3]
  · intro ctx h; simp [closeAudio, h]

/-- Witness of C13: a connected controller holding a connection and an audio context,
ended twice while every release call raises. -/
theorem C13_endInterview_never_raises_witness :
    (closeConnection 1
        { removeAllListenersRaises := true, closeIsFunction := true, closeRaises := true
          audioCloseRaises := true, now₁ := 5000, now₂ := 5000 }).2
      = Except.error "removeAllListeners" ∧
    (endInterview
        (endInterview
          { connection := some 1, audioBuffer := [1, 2], isConnected := true
            currentInterview :=
              some { type := "technical", userId := some "u1", startTime := 1000 }
            onMessage := some 1, onStatusChange := some 2, userData := none
            interviewType := some "technical", audioContext := some 7 }
          { removeAllListenersRaises := true, closeIsFunction := true, closeRaises := true
            audioCloseRaises := true, now₁ := 5000, now₂ := 5000 }).state
        { removeAllListenersRaises := true, closeIsFunction := true, closeRaises := true
          audioCloseRaises := true, now₁ := 6000, now₂ := 6000 }).outcome
      = Outcome.returned { duration := 6000 - 6000, type := none } :=
  ⟨(C13_endInterview_never_raises
      { connection := some 1, audioBuffer := [1, 2], isConnected := true
        currentInterview :=
          some { type := "technical", userId := some "u1", startTime := 1000 }
        onMessage := some 1, onStatusChange := some 2, userData := none
        interviewType := some "technical", audioContext := some 7 }
      { removeAllListenersRaises := true, closeIsFunction := true, closeRaises := true
        audioCloseRaises := true, now₁ := 5000, now₂ := 5000 }
      { removeAllListenersRaises := true, closeIsFunction := true, closeRaises := true
        audioCloseRaises := true, now₁ := 6000, now₂ := 6000 }).2.2.2.2.2.2.1 1 rfl,
   (C13_endInterview_never_raises
      { connection := some 1, audioBuffer := [1, 2], isConnected := true
        currentInterview :=
          some { type := "technical", userId := some "u1", startTime := 1000 }
        onMessage := some 1, onStatusChange := some 2, userData := none
        interviewType := some "technical", audioContext := some 7 }
      { removeAllListenersRaises := true, closeIsFunction := true, closeRaises := true
        audioCloseRaises := true, now₁ := 5000, now₂ := 5000 }
      { removeAllListenersRaises := true, closeIsFunction := true, closeRaises := true
        audioCloseRaises := true, now₁ := 6000, now₂ := 6000 }).2.2.2.2.1⟩

theorem deliver_append (xs ys : List AgentEvent) :
    ∀ s : Agent,
      deliver s (xs ++ ys)
        = ((deliver (deliver s xs).1 ys).1, (deliver s xs).2 ++ (deliver (deliver s xs).1 ys).2) := by
  induction xs with
  | nil => intro s; simp [deliver]
  | cons e rest ih =>
    intro s
    rw [List.cons_append]
    simp only [deliver]
    rw [ih]
    simp [List.append_assoc]

theorem deliver_audio (chunks : List Bytes) :
    ∀ s : Agent,
      deliver s (chunks.map AgentEvent.Audio)
        = ({ s with audioBuffer := s.audioBuffer ++ chunks.flatten }, []) := by
  induction chunks with
  | nil => intro s; simp [deliver]
  | cons c rest ih =>
    intro s
    rw [List.map_cons]
    simp only [deliver, onEvent]
    rw [ih]
    simp [List.append_assoc]

theorem deliver_done (s : Agent) :
    deliver s [AgentEvent.AgentAudioDone]
      = ({ s with audioBuffer := [] },
         if s.audioBuffer = [] then [] else [Effect.play s.audioBuffer]) := by
  cases hb : s.audioBuffer with
  | nil =>
    have hs : s = { s with audioBuffer := [] } := by rw [← hb]
    simp [deliver, onEvent, hb]
    exact hs
  | cons b rest => simp [deliver, onEvent, hb]

/-- C14: audio chunks followed by a speech-finished event hand to playback exactly the
buffer held before them followed by the chunks in arrival order; playback is not
invoked when that is empty; the buffer is empty after the speech-finished event.  The
buffer is empty on a new controller, after every speech-finished event and after
`endInterview`, so what is played is the concatenation of the chunks received since
then. -/
theorem C14_flush_plays_accumulated_chunks (s : Agent) (chunks : List Bytes) (env : EndEnv) :
    (deliver s (chunks.map AgentEvent.Audio ++ [AgentEvent.AgentAudioDone])).2
      = (if s.audioBuffer ++ chunks.flatten = [] then []
         else [Effect.play (s.audioBuffer ++ chunks.flatten)]) ∧
    (deliver s (chunks.map AgentEvent.Audio ++ [AgentEvent.AgentAudioDone])).1.audioBuffer
      = [] ∧
    Agent.new.audioBuffer = [] ∧
    (onEvent s AgentEvent.AgentAudioDone).state.audioBuffer = [] ∧
    (endInterview s env).state.audioBuffer = [] ∧
    (deliver (onEvent s AgentEvent.AgentAudioDone).state
        (chunks.map AgentEvent.Audio ++ [AgentEvent.AgentAudioDone])).2
      = (if chunks.flatten = [] then [] else [Effect.play chunks.flatten]) ∧
    (deliver Agent.new (chunks.map AgentEvent.Audio ++ [AgentEvent.AgentAudioDone])).2
      = (if chunks.flatten = [] then [] else [Effect.play chunks.flatten]) := by
  have hflush : (onEvent s AgentEvent.AgentAudioDone).state.audioBuffer = [] := by
    by_cases h : s.audioBuffer.length > 0
    · simp [onEvent, h]
    · have : s.audioBuffer = [] := by
        cases hb : s.audioBuffer with
        | nil => rfl
        | cons b rest => simp [hb] at h
      simp [onEvent, this]
  have key : ∀ t : Agent,
      (deliver t (chunks.map AgentEvent.Audio ++ [AgentEvent.AgentAudioDone])).2
        = (if t.audioBuffer ++ chunks.flatten = [] then []
           else [Effect.play (t.audioBuffer ++ chunks.flatten)]) ∧
      (deliver t (chunks.map AgentEvent.Audio ++ [AgentEvent.AgentAudioDone])).1.audioBuffer
        = [] := by
    intro t
    rw [deliver_append, deliver_audio, deliver_done]
    simp
  refine ⟨(key s).1, (key s).2, rfl, hflush, rfl, ?_, ?_⟩
  · have h := (key (onEvent s AgentEvent.AgentAudioDone).state).1
    rw [hflush] at h
    simpa using h
  · have h := (key Agent.new).1
    simpa [Agent.new] using h

/-- C15: with a message callback registered, a transcript event of role `assistant` is
forwarded as exactly one turn of role `interviewer`, one of role `user` as exactly one
turn of role `candidate`, the content unchanged; for any other role nothing is
forwarded; so every forwarded turn has its role in {interviewer, candidate}.  The
`ConversationText` listener does this and changes no state. -/
theorem C15_transcript_forwarding (s : Agent) (data : ConversationData) (now : Int) :
    (∀ cb, s.onMessage = some cb →
      (data.role = "assistant" →
        handleDeepgramMessage s data now
          = [Effect.message cb
              { role := "interviewer", content := data.content, timestamp := now }]) ∧
      (data.role = "user" →
        handleDeepgramMessage s data now
          = [Effect.message cb
              { role := "candidate", content := data.content, timestamp := now }])) ∧
    (data.role ≠ "assistant" → data.role ≠ "user" → handleDeepgramMessage s data now = []) ∧
    (∀ e ∈ handleDeepgramMessage s data now,
      ∃ cb turn, e = Effect.message cb turn ∧
        (turn.role = "interviewer" ∨ turn.role = "candidate") ∧
        turn.content = data.content) ∧
    (onEvent s (AgentEvent.ConversationText data now)).effects
      = handleDeepgramMessage s data now ∧
    (onEvent s (AgentEvent.ConversationText data now)).state = s := by
  refine ⟨?_, ?_, ?_, rfl, rfl⟩
  · intro cb hcb
    constructor
    · intro h
      simp [handleDeepgramMessage, h, hcb, notify]
    · intro h
      simp [handleDeepgramMessage, h, hcb, notify]
  · intro h1 h2
    simp [handleDeepgramMessage, h1, h2]
  · intro e he
    unfold handleDeepgramMessage at he
    split_ifs at he with h1 h2
    · cases hcb : s.onMessage with
      | none => simp [notify, hcb] at he
      | some cb =>
        simp only [notify, hcb, List.mem_singleton] at he
        exact ⟨cb, _, he, Or.inl rfl, rfl⟩
    · cases hcb : s.onMessage with
      | none => simp [notify, hcb] at he
      | some cb =>
        simp only [notify, hcb, List.mem_singleton] at he
        exact ⟨cb, _, he, Or.inr rfl, rfl⟩
    · simp at he

/-- Witness of C15: an `assistant` and a `user` transcript on a controller whose message
callback is 1. -/
theorem C15_transcript_forwarding_witness :
    handleDeepgramMessage { Agent.new with onMessage := some 1 }
        { role := "assistant", content := "Tell me about closures." } 2000
      = [Effect.message 1
          { role := "interviewer", content := "Tell me about closures.", timestamp := 2000 }] ∧
    handleDeepgramMessage { Agent.new with onMessage := some 1 }
        { role := "user", content := "A closure keeps its scope." } 3000
      = [Effect.message 1
          { role := "candidate", content := "A closure keeps its scope.", timestamp := 3000 }] :=
  ⟨((C15_transcript_forwarding { Agent.new with onMessage := some 1 }
      { role := "assistant", content := "Tell me about closures." } 2000).1 1 rfl).1 rfl,
   ((C15_transcript_forwarding { Agent.new with onMessage := some 1 }
      { role := "user", content := "A closure keeps its scope." } 3000).1 1 rfl).2 rfl⟩

theorem awaitHandshake_returned_isConnected (events : List AgentEvent) :
    ∀ (s : Agent) (acc : List Effect),
      (awaitHandshake s acc events).outcome = Outcome.returned () →
      (awaitHandshake s acc events).state.isConnected = true := by
  induction events with
  | nil => intro s acc h; simp [awaitHandshake] at h
  | cons e rest ih =>
    intro s acc h
    unfold awaitHandshake at h ⊢
    cases hs : (onEvent s e).settle with
    | none =>
      rw [hs] at h
      simp only [] at h ⊢
      exact ih _ _ h
    | some r =>
      cases r with
      | error err =>
        rw [hs] at h
        simp at h
      | ok u =>
        simp only []
        cases e with
        | Welcome =>
          cases hc : s.connection with
          | none => simp [onEvent, hc] at hs
          | some c => simp [onEvent, hc]
        | Open => simp [onEvent] at hs
        | Close => simp [onEvent] at hs
        | ConversationText data now => simp [onEvent] at hs
        | Audio data => simp [onEvent] at hs
        | AgentAudioDone =>
          by_cases hb : s.audioBuffer.length > 0 <;> simp [onEvent, hb] at hs
        | Error err => simp [onEvent] at hs

/-- C16 (as stated, refuted): on the active, connected controller left by a successful
`startInterview`, an `Error` event leaves `isConnected` true and notifies nobody. -/
theorem C16_counterexample :
    getStatus (startInterview Agent.new "technical" (some "u1") (some 1) (some 2) none
        { now := 1000, agent := Except.ok 1, handshake := [AgentEvent.Welcome]
          audio := AudioSetup.ready 7 }).state
      = { isConnected := true, isActive := true } ∧
    (onEvent (startInterview Agent.new "technical" (some "u1") (some 1) (some 2) none
        { now := 1000, agent := Except.ok 1, handshake := [AgentEvent.Welcome]
          audio := AudioSetup.ready 7 }).state
      (AgentEvent.Error "socket")).state.isConnected = true ∧
    (onEvent (startInterview Agent.new "technical" (some "u1") (some 1) (some 2) none
        { now := 1000, agent := Except.ok 1, handshake := [AgentEvent.Welcome]
          audio := AudioSetup.ready 7 }).state
      (AgentEvent.Error "socket")).effects = [] := by
  refine ⟨rfl, rfl, rfl⟩

/-- C16 (amended): an `Error` event is only logged (and rejects a handshake still
pending): the controller state is unchanged, so `isConnected` keeps its value, and
`onStatusChange` is not notified.  The controller leaves the Active state on the
`Close` event: `isConnected` becomes false and `onStatusChange` is notified with
`{isConnected: false, isListening: false}`. -/
theorem C16_error_event_only_logged (s : Agent) (err : String) :
    (onEvent s (AgentEvent.Error err)).state = s ∧
    (onEvent s (AgentEvent.Error err)).effects = [] ∧
    (onEvent s AgentEvent.Close).state.isConnected = false ∧
    (onEvent s AgentEvent.Close).effects
      = notify s.onStatusChange
          (fun cb => Effect.statusChange cb { isConnected := false, isListening := false }) := by
  refine ⟨rfl, rfl, rfl, rfl⟩

/-- C17 (as stated, refuted): on a new controller, a handshake that succeeds followed
by a denied microphone makes `startInterview` return `false` while the connection is
still held, `isConnected` is true and the current interview is set; a handshake that
fails leaves the connection held and the current interview set as well. -/
theorem C17_counterexample :
    (startInterview Agent.new "technical" (some "u1") (some 1) (some 2) none
        { now := 1000, agent := Except.ok 1, handshake := [AgentEvent.Welcome]
          audio := AudioSetup.denied "NotAllowedError" }).outcome = Outcome.returned false ∧
    (startInterview Agent.new "technical" (some "u1") (some 1) (some 2) none
        { now := 1000, agent := Except.ok 1, handshake := [AgentEvent.Welcome]
          audio := AudioSetup.denied "NotAllowedError" }).state
      = { connection := some 1, audioBuffer := [], isConnected := true
          currentInterview :=
            some { type := "technical", userId := some "u1", startTime := 1000 }
          onMessage := some 1, onStatusChange := some 2, userData := none
          interviewType := some "technical", audioContext := none } ∧
    getStatus (startInterview Agent.new "technical" (some "u1") (some 1) (some 2) none
        { now := 1000, agent := Except.ok 1, handshake := [AgentEvent.Welcome]
          audio := AudioSetup.denied "NotAllowedError" }).state
      = { isConnected := true, isActive := true } ∧
    (startInterview Agent.new "technical" (some "u1") (some 1) (some 2) none
        { now := 1000, agent := Except.ok 1, handshake := [AgentEvent.Error "refused"]
          audio := AudioSetup.ready 7 }).outcome = Outcome.returned false ∧
    (startInterview Agent.new "technical" (some "u1") (some 1) (some 2) none
        { now := 1000, agent := Except.ok 1, handshake := [AgentEvent.Error "refused"]
          audio := AudioSetup.ready 7 }).state
      = { connection := some 1, audioBuffer := [], isConnected := false
          currentInterview :=
            some { type := "technical", userId := some "u1", startTime := 1000 }
          onMessage := some 1, onStatusChange := some 2, userData := none
          interviewType := some "technical", audioContext := none } := by
  refine ⟨rfl, rfl, rfl, rfl, rfl⟩

/-- C17 (amended): after `startInterview` returns `false` the controller has not been
reset.  The current interview is the one the call created, so `getStatus` reports it
active; the connection returned by `this.deepgram.agent()` is still held; and
`isConnected` is true when the handshake had succeeded and only the microphone setup
failed.  The controller is idle again once `endInterview` has been called. -/
theorem C17_failed_start_keeps_session (s : Agent) (type : String) (userId : Option String)
    (onMessage onStatusChange : Option CallbackId) (userData : Option UserProfile)
    (env : StartEnv)
    (_hfail : (startInterview s type userId onMessage onStatusChange userData env).outcome
      = Outcome.returned false) :
    let connected :=
      connectToDeepgram (openSession s type userId onMessage onStatusChange userData env.now)
        env.agent env.handshake
    let r := startInterview s type userId onMessage onStatusChange userData env
    r.state.currentInterview = some { type := type, userId := userId, startTime := env.now } ∧
    (getStatus r.state).isActive = true ∧
    (∀ c, env.agent = Except.ok c → r.state.connection = some c) ∧
    (connected.outcome = Outcome.returned () → r.state.isConnected = true) ∧
    (∀ endEnv : EndEnv,
      (endInterview r.state endEnv).state.connection = none ∧
      getStatus (endInterview r.state endEnv).state
        = { isConnected := false, isActive := false }) := by
  intro connected r
  have hcur := startInterview_currentInterview s type userId onMessage onStatusChange userData env
  have hcases := startInterview_state_cases s type userId onMessage onStatusChange userData env
  refine ⟨hcur, ?_, ?_, ?_, ?_⟩
  · show (getStatus (startInterview s type userId onMessage onStatusChange userData
      env).state).isActive = true
    simp [getStatus, hcur]
  · intro c hc
    have hconn : connected.state.connection = some c := by
      simp only [connected, connectToDeepgram, hc]
      exact (awaitHandshake_frame env.handshake _ _).1
    rcases hcases with h | h
    · show (startInterview s type userId onMessage onStatusChange userData
        env).state.connection = some c
      rw [h]; exact hconn
    · show (startInterview s type userId onMessage onStatusChange userData
        env).state.connection = some c
      rw [h, (setupAudio_frame _ _).2.1]; exact hconn
  · intro hret
    have hic : connected.state.isConnected = true := by
      cases hag : env.agent with
      | error e =>
        have : connected.outcome = Outcome.threw e := by
          simp only [connected, connectToDeepgram, hag]
        rw [this] at hret
        cases hret
      | ok c =>
        have heq : connected = awaitHandshake
            { openSession s type userId onMessage onStatusChange userData env.now with
              connection := some c } [Effect.listen c] env.handshake := by
          simp only [connected, connectToDeepgram, hag]
        rw [heq] at hret ⊢
        exact awaitHandshake_returned_isConnected _ _ _ hret
    have hst : r.state = (setupAudio connected.state env.audio).2 := by
      show (startInterview s type userId onMessage onStatusChange userData env).state = _
      simp only [startInterview]
      rw [show (connectToDeepgram (openSession s type userId onMessage onStatusChange userData
        env.now) env.agent env.handshake).outcome = Outcome.returned () from hret]
      cases env.audio <;> rfl
    rw [hst, (setupAudio_frame _ _).2.2.2.2.2]
    exact hic
  · intro endEnv
    exact ⟨rfl, rfl⟩

/-- Witness of C17 (amended): a handshake that succeeds and a denied microphone on a
new controller. -/
theorem C17_failed_start_keeps_session_witness :
    (startInterview Agent.new "technical" (some "u1") (some 1) (some 2) none
        { now := 1000, agent := Except.ok 1, handshake := [AgentEvent.Welcome]
          audio := AudioSetup.denied "NotAllowedError" }).state.isConnected = true :=
  (C17_failed_start_keeps_session Agent.new "technical" (some "u1") (some 1) (some 2) none
    { now := 1000, agent := Except.ok 1, handshake := [AgentEvent.Welcome]
      audio := AudioSetup.denied "NotAllowedError" } rfl).2.2.2.1 rfl

open JS in
theorem clamp_bounds (v : ℚ) :
    (-32768 : ℚ) ≤ Math.max (-32768) (Math.min 32767 v) ∧
    Math.max (-32768) (Math.min 32767 v) ≤ 32767 := by
  unfold Math.max Math.min
  split_ifs <;> constructor <;> linarith

open JS in
theorem truncate_bounds {v : ℚ} (hlo : (-32768 : ℚ) ≤ v) (hhi : v ≤ 32767) :
    -32768 ≤ truncate v ∧ truncate v ≤ 32767 := by
  unfold truncate
  split_ifs with h
  · constructor
    · have : (0 : ℤ) ≤ ⌊v⌋ := Int.floor_nonneg.mpr h
      omega
    · have h1 : (⌊v⌋ : ℚ) ≤ v := Int.floor_le v
      have h2 : (⌊v⌋ : ℚ) ≤ 32767 := le_trans h1 hhi
      exact_mod_cast h2
  · constructor
    · have h1 : ((-32768 : ℤ) : ℚ) ≤ v := by exact_mod_cast hlo
      exact Int.le_ceil_iff.mpr (by
        have : (((-32768 : ℤ) : ℚ) - 1) < v := by linarith
        exact_mod_cast this)
    · have h1 : v ≤ ((0 : ℤ) : ℚ) := by
        have : v < 0 := not_le.mp h
        exact_mod_cast le_of_lt this
      have : ⌈v⌉ ≤ 0 := Int.ceil_le.mpr h1
      omega

open JS in
theorem toInt16_of_range {v : ℚ} (hlo : (-32768 : ℚ) ≤ v) (hhi : v ≤ 32767) :
    toInt16 v = truncate v := by
  obtain ⟨h1, h2⟩ := truncate_bounds hlo hhi
  unfold toInt16
  simp only []
  split_ifs with h <;> omega

open JS in
theorem encodeSample_eq_truncate (x : ℚ) :
    encodeSample x = truncate (Math.max (-32768) (Math.min 32767 (x * 32768))) := by
  unfold encodeSample
  exact toInt16_of_range (clamp_bounds _).1 (clamp_bounds _).2

open JS in
theorem encodeSample_of_one_le {x : ℚ} (h : 1 ≤ x) : encodeSample x = 32767 := by
  rw [encodeSample_eq_truncate]
  have hmin : Math.min 32767 (x * 32768) = 32767 := by
    unfold Math.min
    split_ifs with hc
    · rfl
    · exact absurd (by linarith : (32767 : ℚ) ≤ x * 32768) hc
  rw [hmin]
  have hmax : Math.max (-32768) 32767 = 32767 := by
    unfold Math.max
    norm_num
  rw [hmax]
  unfold truncate
  norm_num

open JS in
theorem encodeSample_of_le_neg_one {x : ℚ} (h : x ≤ -1) : encodeSample x = -32768 := by
  rw [encodeSample_eq_truncate]
  have hmin : Math.min 32767 (x * 32768) = x * 32768 := by
    unfold Math.min
    split_ifs with hc
    · exact absurd hc (by linarith)
    · rfl
  rw [hmin]
  have hmax : Math.max (-32768) (x * 32768) = -32768 := by
    unfold Math.max
    split_ifs with hc
    · linarith
    · rfl
  rw [hmax]
  unfold truncate
  norm_num [Int.ceil_eq_iff]

/-- C18 (as stated, refuted): the sample −1 is encoded as −32768 while
`round(clamp(x, -1, 1) * 32767)` is −32767; the sample 1/50000 is encoded as 0 while
the formula gives 1. -/
theorem C18_counterexample :
    encodeSample (-1) = -32768 ∧ specEncodeSample (-1) = -32767 ∧
    encodeSample (1 / 50000) = 0 ∧ specEncodeSample (1 / 50000) = 1 ∧
    encodeSample (-1) ≠ specEncodeSample (-1) := by
  have h1 : encodeSample (-1) = -32768 := encodeSample_of_le_neg_one (le_refl _)
  have h2 : specEncodeSample (-1) = -32767 := by
    simp [specEncodeSample, JS.Math.max, JS.Math.min, JS.Math.round]
    norm_num [Int.floor_eq_iff]
  have h3 : encodeSample (1 / 50000) = 0 := by
    rw [encodeSample_eq_truncate]
    simp [JS.Math.max, JS.Math.min, JS.truncate]
    norm_num [Int.floor_eq_iff]
  have h4 : specEncodeSample (1 / 50000) = 1 := by
    simp [specEncodeSample, JS.Math.max, JS.Math.min, JS.Math.round]
    norm_num [Int.floor_eq_iff]
  refine ⟨h1, h2, h3, h4, ?_⟩
  rw [h1, h2]
  decide

/-- C18 (amended): for every captured sample `x` (an exact real), the 16-bit value the
capture callback produces is `trunc(clamp(x * 32768, -32768, 32767))`, where `trunc`
drops the fractional part (rounds towards zero); storing it in the `Int16Array` never
wraps. -/
theorem C18_encodeSample_truncates_scaled_clamp (x : ℚ) :
    encodeSample x
      = JS.truncate (JS.Math.max (-32768) (JS.Math.min 32767 (x * 32768))) ∧
    -32768 ≤ encodeSample x ∧ encodeSample x ≤ 32767 := by
  have h := encodeSample_eq_truncate x
  have hb := truncate_bounds (clamp_bounds (x * 32768)).1 (clamp_bounds (x * 32768)).2
  rw [h]
  exact ⟨rfl, hb.1, hb.2⟩

/-- C19: a capture frame of zeros is encoded as zeros and a frame of ones as 32767s;
every sample `x ≥ 1` saturates to 32767 and every sample `x ≤ -1` to −32768; an encoded
sample never has the sign opposite to its sample; a connected controller sends the
frame so encoded. -/
theorem C19_encoding_saturates :
    encodeSample 0 = 0 ∧ encodeSample 1 = 32767 ∧
    (∀ n : Nat, (List.replicate n (0 : ℚ)).map encodeSample = List.replicate n 0) ∧
    (∀ n : Nat, (List.replicate n (1 : ℚ)).map encodeSample = List.replicate n 32767) ∧
    (∀ x : ℚ, 1 ≤ x → encodeSample x = 32767) ∧
    (∀ x : ℚ, x ≤ -1 → encodeSample x = -32768) ∧
    (∀ x : ℚ, 0 ≤ x → 0 ≤ encodeSample x) ∧
    (∀ x : ℚ, x ≤ 0 → encodeSample x ≤ 0) ∧
    (∀ (s : Agent) (c : ConnId) (n : Nat), s.isConnected = true → s.connection = some c →
      onaudioprocess s (List.replicate n 0) = [Effect.sendPcm c (List.replicate n 0)] ∧
      onaudioprocess s (List.replicate n 1) = [Effect.sendPcm c (List.replicate n 32767)]) := by
  have h0 : encodeSample 0 = 0 := by
    rw [encodeSample_eq_truncate]
    norm_num [JS.Math.max, JS.Math.min, JS.truncate]
  have h1 : encodeSample 1 = 32767 := encodeSample_of_one_le (le_refl _)
  have hz : ∀ n : Nat, (List.replicate n (0 : ℚ)).map encodeSample = List.replicate n 0 := by
    intro n
    rw [List.map_replicate, h0]
  have ho : ∀ n : Nat, (List.replicate n (1 : ℚ)).map encodeSample
      = List.replicate n 32767 := by
    intro n
    rw [List.map_replicate, h1]
  refine ⟨h0, h1, hz, ho, fun x hx => encodeSample_of_one_le hx,
    fun x hx => encodeSample_of_le_neg_one hx, ?_, ?_, ?_⟩
  · intro x hx
    rw [encodeSample_eq_truncate]
    have hv : (0 : ℚ) ≤ JS.Math.max (-32768) (JS.Math.min 32767 (x * 32768)) := by
      unfold JS.Math.max JS.Math.min
      split_ifs <;> nlinarith
    unfold JS.truncate
    rw [if_pos hv]
    exact Int.floor_nonneg.mpr hv
  · intro x hx
    rw [encodeSample_eq_truncate]
    have hv : JS.Math.max (-32768) (JS.Math.min 32767 (x * 32768)) ≤ 0 := by
      unfold JS.Math.max JS.Math.min
      split_ifs <;> nlinarith
    unfold JS.truncate
    split_ifs with h
    · have hz0 : JS.Math.max (-32768) (JS.Math.min 32767 (x * 32768)) = 0 := le_antisymm hv h
      rw [hz0]
      simp
    · exact Int.ceil_le.mpr (by exact_mod_cast hv)
  · intro s c n hs hc
    simp [onaudioprocess, hs, hc, hz, ho]

/-- Witness of C19: the connected controller left by a successful start sends a frame of
four zeros as four zeros and a frame of four ones as four 32767s. -/
theorem C19_encoding_saturates_witness :
    onaudioprocess
        { Agent.new with isConnected := true, connection := some 1 } (List.replicate 4 0)
      = [Effect.sendPcm 1 (List.replicate 4 0)] ∧
    onaudioprocess
        { Agent.new with isConnected := true, connection := some 1 } (List.replicate 4 1)
      = [Effect.sendPcm 1 (List.replicate 4 32767)] :=
  C19_encoding_saturates.2.2.2.2.2.2.2.2
    { Agent.new with isConnected := true, connection := some 1 } 1 4 rfl rfl

theorem int16At_bounds (lo hi : Byte) : -32768 ≤ int16At lo hi ∧ int16At lo hi ≤ 32767 := by
  have h1 : (lo.val : ℤ) < 256 := by exact_mod_cast lo.isLt
  have h2 : (hi.val : ℤ) < 256 := by exact_mod_cast hi.isLt
  have h3 : (0 : ℤ) ≤ (lo.val : ℤ) := Int.natCast_nonneg _
  have h4 : (0 : ℤ) ≤ (hi.val : ℤ) := Int.natCast_nonneg _
  unfold int16At
  simp only []
  split_ifs with h <;> omega

theorem int16Array_spec (n : Nat) :
    ∀ audioData : Bytes, audioData.length = 2 * n →
      (int16Array audioData).length = n ∧
      ∀ i, i < n → ∃ lo hi,
        audioData[2 * i]? = some lo ∧ audioData[2 * i + 1]? = some hi ∧
        (int16Array audioData)[i]? = some (int16At lo hi) := by
  induction n with
  | zero =>
    intro audioData h
    have : audioData = [] := List.length_eq_zero.mp (by omega)
    subst this
    exact ⟨rfl, fun i hi => absurd hi (Nat.not_lt_zero i)⟩
  | succ k ih =>
    intro audioData h
    match audioData, h with
    | lo :: hi :: rest, h =>
      have hrest : rest.length = 2 * k := by
        simp only [List.length_cons] at h
        omega
      obtain ⟨hlen, hget⟩ := ih rest hrest
      refine ⟨by simp [int16Array, hlen], ?_⟩
      intro i hi'
      cases i with
      | zero => exact ⟨lo, hi, by simp, by simp, by simp [int16Array]⟩
      | succ j =>
        obtain ⟨a, b, ha, hb, hab⟩ := hget j (by omega)
        refine ⟨a, b, ?_, ?_, ?_⟩
        · have : 2 * (j + 1) = (2 * j) + 1 + 1 := by omega
          rw [this]
          simpa using ha
        · have : 2 * (j + 1) + 1 = (2 * j + 1) + 1 + 1 := by omega
          rw [this]
          simpa using hb
        · simpa [int16Array] using hab
    | [], h => simp at h
    | [_], h => simp at h; omega

/-- C20: for every byte buffer of even length `2n`, `playAudio` produces exactly `n`
samples; sample `i` is the signed 16-bit integer whose low byte is byte `2i` and whose
high byte is byte `2i+1`, divided by 32768; every sample lies in [-1, 1). -/
theorem C20_playAudio_decodes_int16 (audioData : Bytes) (n : Nat)
    (heven : audioData.length = 2 * n) :
    ∃ samples : List ℚ,
      playAudio audioData = some samples ∧ samples.length = n ∧
      ∀ i, i < n → ∃ lo hi,
        audioData[2 * i]? = some lo ∧ audioData[2 * i + 1]? = some hi ∧
        samples[i]? = some ((int16At lo hi : ℚ) / 32768) ∧
        (-1 : ℚ) ≤ (int16At lo hi : ℚ) / 32768 ∧ (int16At lo hi : ℚ) / 32768 < 1 := by
  obtain ⟨hlen, hget⟩ := int16Array_spec n audioData heven
  refine ⟨(int16Array audioData).map (fun (v : ℤ) => (v : ℚ) / 32768), ?_,
    by rw [List.length_map, hlen], ?_⟩
  · have : audioData.length % 2 = 0 := by omega
    simp [playAudio, this]
  · intro i hi
    obtain ⟨lo, hi', h1, h2, h3⟩ := hget i hi
    obtain ⟨b1, b2⟩ := int16At_bounds lo hi'
    have q1 : (-32768 : ℚ) ≤ (int16At lo hi' : ℚ) := by exact_mod_cast b1
    have q2 : (int16At lo hi' : ℚ) ≤ 32767 := by exact_mod_cast b2
    refine ⟨lo, hi', h1, h2, ?_, ?_, ?_⟩
    · rw [List.getElem?_map, h3]
      rfl
    · rw [le_div_iff₀ (by norm_num)]
      linarith
    · rw [div_lt_iff₀ (by norm_num)]
      linarith

/-- Witness of C20: the four bytes `00 80 ff 7f` decode to the two samples −1 and
32767/32768. -/
theorem C20_playAudio_decodes_int16_witness :
    ∃ samples : List ℚ,
      playAudio [0x00, 0x80, 0xff, 0x7f] = some samples ∧ samples.length = 2 ∧
      ∀ i, i < 2 → ∃ lo hi,
        ([0x00, 0x80, 0xff, 0x7f] : Bytes)[2 * i]? = some lo ∧
        ([0x00, 0x80, 0xff, 0x7f] : Bytes)[2 * i + 1]? = some hi ∧
        samples[i]? = some ((int16At lo hi : ℚ) / 32768) ∧
        (-1 : ℚ) ≤ (int16At lo hi : ℚ) / 32768 ∧ (int16At lo hi : ℚ) / 32768 < 1 :=
  C20_playAudio_decodes_int16 [0x00, 0x80, 0xff, 0x7f] 2 rfl

theorem onEvent_isConnected_false (s : Agent) (e : AgentEvent) (hne : e ≠ AgentEvent.Welcome)
    (h : s.isConnected = false) : (onEvent s e).state.isConnected = false := by
  cases e with
  | Welcome => exact absurd rfl hne
  | Open => simpa [onEvent] using h
  | Close => simp [onEvent]
  | ConversationText data now => simpa [onEvent] using h
  | Audio data => simpa [onEvent] using h
  | AgentAudioDone =>
    by_cases hb : s.audioBuffer.length > 0 <;> simpa [onEvent, hb] using h
  | Error err => simpa [onEvent] using h

theorem deliver_isConnected_false (events : List AgentEvent) :
    ∀ s : Agent, (∀ e ∈ events, e ≠ AgentEvent.Welcome) → s.isConnected = false →
      (deliver s events).1.isConnected = false := by
  induction events with
  | nil => intro s _ h; simpa [deliver] using h
  | cons e rest ih =>
    intro s hall h
    simp only [deliver]
    exact ih _ (fun e' he' => hall e' (List.mem_cons_of_mem _ he'))
      (onEvent_isConnected_false s e (hall e (List.mem_cons_self _ _)) h)

theorem onaudioprocess_of_not_connected (s : Agent) (frame : List ℚ)
    (h : s.isConnected = false ∨ s.connection = none) : onaudioprocess s frame = [] := by
  unfold onaudioprocess
  rcases h with h | h
  · rw [h]
  · rw [h]
    cases s.isConnected <;> rfl

/-- C21 (as stated, refuted): on the connected controller left by a successful
`startInterview`, a `Close` event followed by a `Welcome` event leaves `isConnected`
true again (line 81 sets it without a condition), and the frame captured next, after
the connection-closed event, is sent. -/
theorem C21_counterexample :
    (deliver
        (startInterview Agent.new "technical" (some "u1") (some 1) (some 2) none
          { now := 1000, agent := Except.ok 1, handshake := [AgentEvent.Welcome]
            audio := AudioSetup.ready 7 }).state
        [AgentEvent.Close, AgentEvent.Welcome]).1.isConnected = true ∧
    onaudioprocess
        (deliver
          (startInterview Agent.new "technical" (some "u1") (some 1) (some 2) none
            { now := 1000, agent := Except.ok 1, handshake := [AgentEvent.Welcome]
              audio := AudioSetup.ready 7 }).state
          [AgentEvent.Close, AgentEvent.Welcome]).1
        [0, 1]
      = [Effect.sendPcm 1 [0, 32767]] ∧
    onaudioprocess
        (deliver
          (startInterview Agent.new "technical" (some "u1") (some 1) (some 2) none
            { now := 1000, agent := Except.ok 1, handshake := [AgentEvent.Welcome]
              audio := AudioSetup.ready 7 }).state
          [AgentEvent.Close, AgentEvent.Welcome]).1
        [0, 1]
      ≠ [] := by
  have hs : (deliver
      (startInterview Agent.new "technical" (some "u1") (some 1) (some 2) none
        { now := 1000, agent := Except.ok 1, handshake := [AgentEvent.Welcome]
          audio := AudioSetup.ready 7 }).state
      [AgentEvent.Close, AgentEvent.Welcome]).1
      = { connection := some 1, audioBuffer := [], isConnected := true
          currentInterview :=
            some { type := "technical", userId := some "u1", startTime := 1000 }
          onMessage := some 1, onStatusChange := some 2, userData := none
          interviewType := some "technical", audioContext := some 7 } := rfl
  have h0 : encodeSample 0 = 0 := by
    rw [encodeSample_eq_truncate]
    norm_num [JS.Math.max, JS.Math.min, JS.truncate]
  have h1 : encodeSample 1 = 32767 := encodeSample_of_one_le (le_refl _)
  have hsend : onaudioprocess
      (deliver
        (startInterview Agent.new "technical" (some "u1") (some 1) (some 2) none
          { now := 1000, agent := Except.ok 1, handshake := [AgentEvent.Welcome]
            audio := AudioSetup.ready 7 }).state
        [AgentEvent.Close, AgentEvent.Welcome]).1
      [0, 1]
      = [Effect.sendPcm 1 [0, 32767]] := by
    rw [hs]
    simp [onaudioprocess, h0, h1]
  refine ⟨by rw [hs], hsend, ?_⟩
  rw [hsend]
  simp

/-- C21 (amended): a captured frame is forwarded only when `isConnected` is true and a
connection is held, and then as one message to that connection.  Hence no frame is sent
in the state left by a `Close` event, nor after any further events as long as none of
them is a `Welcome`; and no frame is sent in the state left by `endInterview`, nor after
any further events at all.  A `Welcome` event that follows the `Close` while a
connection is held sets `isConnected` again, and frames are sent again. -/
theorem C21_frames_only_while_connected (s : Agent) (frame : List ℚ) (env : EndEnv)
    (events : List AgentEvent) :
    (onaudioprocess s frame ≠ [] →
      s.isConnected = true ∧
      ∃ c, s.connection = some c ∧
        onaudioprocess s frame = [Effect.sendPcm c (frame.map encodeSample)]) ∧
    (s.isConnected = false ∨ s.connection = none → onaudioprocess s frame = []) ∧
    onaudioprocess (onEvent s AgentEvent.Close).state frame = [] ∧
    ((∀ e ∈ events, e ≠ AgentEvent.Welcome) →
      onaudioprocess (deliver (onEvent s AgentEvent.Close).state events).1 frame = []) ∧
    onaudioprocess (endInterview s env).state frame = [] ∧
    onaudioprocess (deliver (endInterview s env).state events).1 frame = [] ∧
    (∀ c, s.connection = some c →
      onaudioprocess
          (deliver (onEvent s AgentEvent.Close).state [AgentEvent.Welcome]).1 frame
        = [Effect.sendPcm c (frame.map encodeSample)]) := by
  refine ⟨?_, onaudioprocess_of_not_connected s frame, ?_, ?_, ?_, ?_, ?_⟩
  · intro h
    cases hc : s.isConnected with
    | false => exact absurd (onaudioprocess_of_not_connected s frame (Or.inl hc)) h
    | true =>
      cases hn : s.connection with
      | none => exact absurd (onaudioprocess_of_not_connected s frame (Or.inr hn)) h
      | some c =>
        refine ⟨rfl, c, rfl, ?_⟩
        simp [onaudioprocess, hc, hn]
  · exact onaudioprocess_of_not_connected _ frame (Or.inl rfl)
  · intro hall
    exact onaudioprocess_of_not_connected _ frame
      (Or.inl (deliver_isConnected_false events _ hall rfl))
  · exact onaudioprocess_of_not_connected _ frame (Or.inl rfl)
  · apply onaudioprocess_of_not_connected _ frame
    right
    rw [(deliver_frame events _).1]
    rfl
  · intro c hc
    simp [onaudioprocess, deliver, onEvent, hc]

/-- Witness of C21 (amended): on the connected controller, after `Close`, then a late
transcript, a captured frame is not sent. -/
theorem C21_frames_only_while_connected_witness :
    onaudioprocess
        (deliver (onEvent { Agent.new with isConnected := true, connection := some 1 }
          AgentEvent.Close).state
          [AgentEvent.ConversationText { role := "user", content := "bye" } 9000]).1
        [0, 1] = [] :=
  (C21_frames_only_while_connected { Agent.new with isConnected := true, connection := some 1 }
    [0, 1]
    { removeAllListenersRaises := false, closeIsFunction := true, closeRaises := false
      audioCloseRaises := false, now₁ := 0, now₂ := 0 }
    [AgentEvent.ConversationText { role := "user", content := "bye" } 9000]).2.2.2.1
    (by decide)

theorem welcomeSettings_congr {s t : Agent} (h1 : t.interviewType = s.interviewType)
    (h2 : t.userData = s.userData) : welcomeSettings t = welcomeSettings s := by
  simp [welcomeSettings, h1, h2]

theorem deliver_frame_profile (events : List AgentEvent) :
    ∀ s : Agent,
      (deliver s events).1.userData = s.userData ∧
      (deliver s events).1.interviewType = s.interviewType := by
  induction events with
  | nil => intro s; simp [deliver]
  | cons e rest ih =>
    intro s
    obtain ⟨h1, h2⟩ := ih (onEvent s e).state
    obtain ⟨_, _, _, _, f5, f6, _⟩ := onEvent_frame s e
    simp only [deliver]
    exact ⟨h1.trans f5, h2.trans f6⟩

theorem notify_filter_isConfigure (cb : Option CallbackId) (mk : CallbackId → Effect)
    (h : ∀ id, (mk id).isConfigure = false) :
    (notify cb mk).filter Effect.isConfigure = [] := by
  cases cb with
  | none => rfl
  | some id => simp [notify, h id]

theorem onEvent_unsettled_no_configure (s : Agent) (e : AgentEvent)
    (h : (onEvent s e).settle = none) :
    (onEvent s e).effects.filter Effect.isConfigure = [] := by
  cases e with
  | Welcome =>
    cases hc : s.connection with
    | none => simp [onEvent, hc, Effect.isConfigure]
    | some c => simp [onEvent, hc] at h
  | Open => simp [onEvent]
  | Close =>
    simp only [onEvent]
    exact notify_filter_isConfigure _ _ (fun _ => rfl)
  | ConversationText data now =>
    simp only [onEvent, handleDeepgramMessage]
    split_ifs
    · exact notify_filter_isConfigure _ _ (fun _ => rfl)
    · exact notify_filter_isConfigure _ _ (fun _ => rfl)
    · rfl
  | Audio data => simp [onEvent]
  | AgentAudioDone =>
    by_cases hb : s.audioBuffer.length > 0 <;> simp [onEvent, hb, Effect.isConfigure]
  | Error err => simp [onEvent] at h

theorem awaitHandshake_configure (c : ConnId) (events : List AgentEvent) :
    ∀ (s : Agent) (acc : List Effect), s.connection = some c →
      (awaitHandshake s acc events).outcome = Outcome.returned () →
      (awaitHandshake s acc events).effects.filter Effect.isConfigure
        = acc.filter Effect.isConfigure ++ [Effect.configure c (welcomeSettings s)] := by
  induction events with
  | nil => intro s acc _ h; simp [awaitHandshake] at h
  | cons e rest ih =>
    intro s acc hc h
    unfold awaitHandshake at h ⊢
    cases hs : (onEvent s e).settle with
    | none =>
      rw [hs] at h
      simp only [] at h ⊢
      obtain ⟨f1, _, _, _, f5, f6, _⟩ := onEvent_frame s e
      rw [ih _ _ (f1.trans hc) h, List.filter_append, onEvent_unsettled_no_configure s e hs,
        List.append_nil, welcomeSettings_congr f6 f5]
    | some r =>
      cases r with
      | error err =>
        rw [hs] at h
        simp at h
      | ok u =>
        simp only []
        cases e with
        | Welcome => simp [onEvent, hc, Effect.isConfigure]
        | Open => simp [onEvent] at hs
        | Close => simp [onEvent] at hs
        | ConversationText data now => simp [onEvent] at hs
        | Audio data => simp [onEvent] at hs
        | AgentAudioDone =>
          by_cases hb : s.audioBuffer.length > 0 <;> simp [onEvent, hb] at hs
        | Error err => simp [onEvent] at hs

/-- C22: in the session opened by `startInterview(type, ..., userData)`, every `Welcome`
event makes the controller issue exactly one `configure` call (followed by the greeting
timer), on the session's connection, with audio input linear16 at 24000 Hz, audio
output linear16 at 16000 Hz in a wav container, language `en`, the prompt
`getInterviewPrompt(type, userData)` and the greeting `getGreeting(type, userData)`;
and the trace of a `startInterview` whose handshake succeeded holds exactly one
`configure` call, that one. -/
theorem C22_welcome_configures_once (s : Agent) (type : String) (userId : Option String)
    (onMessage onStatusChange : Option CallbackId) (userData : Option UserProfile)
    (env : StartEnv) (c : ConnId) (earlier : List AgentEvent)
    (hagent : env.agent = Except.ok c) :
    (∃ settings : Settings,
      (onEvent (deliver
          { openSession s type userId onMessage onStatusChange userData env.now with
            connection := some c } earlier).1 AgentEvent.Welcome).effects
        = [Effect.configure c settings, Effect.setTimeout 1000] ∧
      settings.inputEncoding = "linear16" ∧ settings.inputSampleRate = 24000 ∧
      settings.outputEncoding = "linear16" ∧ settings.outputSampleRate = 16000 ∧
      settings.outputContainer = "wav" ∧ settings.language = "en" ∧
      settings.prompt = getInterviewPrompt type userData ∧
      settings.greeting = getGreeting type userData) ∧
    ((connectToDeepgram (openSession s type userId onMessage onStatusChange userData env.now)
        env.agent env.handshake).outcome = Outcome.returned () →
      ∃ settings : Settings,
        (startInterview s type userId onMessage onStatusChange userData env).effects.filter
            Effect.isConfigure = [Effect.configure c settings] ∧
        settings.inputEncoding = "linear16" ∧ settings.inputSampleRate = 24000 ∧
        settings.outputEncoding = "linear16" ∧ settings.outputSampleRate = 16000 ∧
        settings.outputContainer = "wav" ∧ settings.language = "en" ∧
        settings.prompt = getInterviewPrompt type userData ∧
        settings.greeting = getGreeting type userData) := by
  constructor
  · obtain ⟨d1, _, _, _⟩ := deliver_frame earlier
      { openSession s type userId onMessage onStatusChange userData env.now with
        connection := some c }
    obtain ⟨p1, p2⟩ := deliver_frame_profile earlier
      { openSession s type userId onMessage onStatusChange userData env.now with
        connection := some c }
    refine ⟨welcomeSettings (deliver
        { openSession s type userId onMessage onStatusChange userData env.now with
          connection := some c } earlier).1, ?_, rfl, rfl, rfl, rfl, rfl, rfl, ?_, ?_⟩
    · simp only [onEvent, d1]
    · simp only [welcomeSettings, p1, p2]
      rfl
    · simp only [welcomeSettings, p1, p2]
      rfl
  · intro hret
    have hconn : connectToDeepgram
        (openSession s type userId onMessage onStatusChange userData env.now)
        env.agent env.handshake
        = awaitHandshake
            { openSession s type userId onMessage onStatusChange userData env.now with
              connection := some c } [Effect.listen c] env.handshake := by
      simp only [connectToDeepgram, hagent]
    have hcfg := awaitHandshake_configure c env.handshake
      { openSession s type userId onMessage onStatusChange userData env.now with
        connection := some c } [Effect.listen c] rfl (by rw [← hconn]; exact hret)
    rw [← hconn] at hcfg
    have heff : (startInterview s type userId onMessage onStatusChange userData
        env).effects.filter Effect.isConfigure
        = (connectToDeepgram (openSession s type userId onMessage onStatusChange userData
            env.now) env.agent env.handshake).effects.filter Effect.isConfigure := by
      simp only [startInterview]
      rw [hret]
      cases env.audio with
      | denied e => rfl
      | failed ctx e => rfl
      | ready ctx =>
        simp only [setupAudio, List.filter_append]
        have hn : ∀ cb : Option CallbackId,
            (notify cb (fun id => Effect.statusChange id
              { isConnected := true, isListening := true })).filter Effect.isConfigure = [] :=
          fun cb => notify_filter_isConfigure cb _ (fun _ => rfl)
        rw [hn, List.append_nil]
    refine ⟨_, heff.trans hcfg, rfl, rfl, rfl, rfl, rfl, rfl, rfl, rfl⟩

/-- Witness of C22: a technical interview for the profile of Ana with the skill Python,
on a new controller, the connection answering `Open` then `Welcome`. -/
theorem C22_welcome_configures_once_witness :
    ∃ settings : Settings,
      (startInterview Agent.new "technical" (some "u1") (some 1) (some 2)
          (some { name := some "Ana", skills := some ["Python"], experience := none })
          { now := 1000, agent := Except.ok 1
            handshake := [AgentEvent.Open, AgentEvent.Welcome]
            audio := AudioSetup.ready 7 }).effects.filter Effect.isConfigure
        = [Effect.configure 1 settings] ∧
      settings.inputEncoding = "linear16" ∧ settings.inputSampleRate = 24000 ∧
      settings.outputEncoding = "linear16" ∧ settings.outputSampleRate = 16000 ∧
      settings.outputContainer = "wav" ∧ settings.language = "en" ∧
      settings.prompt = getInterviewPrompt "technical"
        (some { name := some "Ana", skills := some ["Python"], experience := none }) ∧
      settings.greeting = getGreeting "technical"
        (some { name := some "Ana", skills := some ["Python"], experience := none }) :=
  (C22_welcome_configures_once Agent.new "technical" (some "u1") (some 1) (some 2)
    (some { name := some "Ana", skills := some ["Python"], experience := none })
    { now := 1000, agent := Except.ok 1
      handshake := [AgentEvent.Open, AgentEvent.Welcome]
      audio := AudioSetup.ready 7 } 1 [] rfl).2 rfl

/-- C23: for each of the four interview types, `getGreeting` interpolates the name
(after `Hello` or `Hi`, when the profile has a non-empty one) and the skills phrase,
which is the first two keys of the skills map joined by ` and `, the single key when
there is one; keys after the second never change the greeting. -/
theorem C23_greeting_uses_first_two_skills :
    (∀ (type : String) (name exp : Option String) (k1 k2 : String) (rest : List String),
      getGreeting type (some { name := name, skills := some (k1 :: k2 :: rest), experience := exp })
        = getGreeting type (some { name := name, skills := some [k1, k2], experience := exp })) ∧
    (∀ (n k1 k2 : String) (rest : List String) (exp : Option String), n ≠ "" →
      getGreeting "technical"
          (some { name := some n, skills := some (k1 :: k2 :: rest), experience := exp })
        = "Hello" ++ (" " ++ n)
            ++ "! I'm your technical interviewer. I can see you have experience with "
            ++ (k1 ++ " and " ++ k2)
            ++ ". Let's dive into a technical challenge - can you walk me through a complex problem you solved using "
            ++ (k1 ++ " and " ++ k2) ++ "?" ∧
      getGreeting "behavioral"
          (some { name := some n, skills := some (k1 :: k2 :: rest), experience := exp })
        = "Hi" ++ (" " ++ n) ++ "! I'm conducting your behavioral interview. I see you have "
            ++ (k1 ++ " and " ++ k2)
            ++ " in your profile. Can you tell me about a time when you had to learn a new technology quickly under pressure?" ∧
      getGreeting "hr"
          (some { name := some n, skills := some (k1 :: k2 :: rest), experience := exp })
        = "Hello" ++ (" " ++ n)
            ++ "! I'm your HR interviewer. Looking at your background with "
            ++ (k1 ++ " and " ++ k2)
            ++ ", what drives your passion for technology and where do you see yourself in 3 years?" ∧
      getGreeting "system-design"
          (some { name := some n, skills := some (k1 :: k2 :: rest), experience := exp })
        = "Hi" ++ (" " ++ n)
            ++ "! I'm your system design interviewer. Given your experience with "
            ++ (k1 ++ " and " ++ k2)
            ++ ", let's design a scalable web application. How would you approach building a social media platform?") ∧
    (∀ (n k : String) (exp : Option String), n ≠ "" →
      getGreeting "technical" (some { name := some n, skills := some [k], experience := exp })
        = "Hello" ++ (" " ++ n)
            ++ "! I'm your technical interviewer. I can see you have experience with " ++ k
            ++ ". Let's dive into a technical challenge - can you walk me through a complex problem you solved using "
            ++ k ++ "?" ∧
      getGreeting "behavioral" (some { name := some n, skills := some [k], experience := exp })
        = "Hi" ++ (" " ++ n) ++ "! I'm conducting your behavioral interview. I see you have "
            ++ k
            ++ " in your profile. Can you tell me about a time when you had to learn a new technology quickly under pressure?" ∧
      getGreeting "hr" (some { name := some n, skills := some [k], experience := exp })
        = "Hello" ++ (" " ++ n)
            ++ "! I'm your HR interviewer. Looking at your background with " ++ k
            ++ ", what drives your passion for technology and where do you see yourself in 3 years?" ∧
      getGreeting "system-design" (some { name := some n, skills := some [k], experience := exp })
        = "Hi" ++ (" " ++ n)
            ++ "! I'm your system design interviewer. Given your experience with " ++ k
            ++ ", let's design a scalable web application. How would you approach building a social media platform?") ∧
    (∀ (k1 k2 : String) (rest : List String) (exp : Option String),
      getGreeting "technical"
          (some { name := none, skills := some (k1 :: k2 :: rest), experience := exp })
        = "Hello" ++ ""
            ++ "! I'm your technical interviewer. I can see you have experience with "
            ++ (k1 ++ " and " ++ k2)
            ++ ". Let's dive into a technical challenge - can you walk me through a complex problem you solved using "
            ++ (k1 ++ " and " ++ k2) ++ "?") := by
  refine ⟨?_, ?_, ?_, ?_⟩
  · intro type name exp k1 k2 rest
    simp [getGreeting, joinKeys]
  · intro n k1 k2 rest exp hn
    refine ⟨?_, ?_, ?_, ?_⟩ <;>
      simp [getGreeting, joinKeys, String.intercalate, String.intercalate.go, hn]
  · intro n k exp hn
    refine ⟨?_, ?_, ?_, ?_⟩ <;>
      simp [getGreeting, joinKeys, String.intercalate, String.intercalate.go, hn]
  · intro k1 k2 rest exp
    simp [getGreeting, joinKeys, String.intercalate, String.intercalate.go]

/-- Witness of C23: Ana with the skills Python, Go and Rust is greeted for a behavioral
interview with her name and `Python and Go`. -/
theorem C23_greeting_uses_first_two_skills_witness :
    getGreeting "behavioral"
        (some { name := some "Ana", skills := some ["Python", "Go", "Rust"], experience := none })
      = "Hi" ++ (" " ++ "Ana") ++ "! I'm conducting your behavioral interview. I see you have "
          ++ ("Python" ++ " and " ++ "Go")
          ++ " in your profile. Can you tell me about a time when you had to learn a new technology quickly under pressure?" :=
  (C23_greeting_uses_first_two_skills.2.1 "Ana" "Python" "Go" ["Rust"] none (by decide)).2.1

/-- C24 (as stated, refuted): for Ana with the three skills Python, Go and Rust the
technical prompt names all three (twice), and it differs from the prompt for her first
two skills only. -/
theorem C24_counterexample :
    getInterviewPrompt "technical"
        (some { name := some "Ana", skills := some ["Python", "Go", "Rust"]
                experience := some "2 years" })
      = "You are conducting a technical interview. The candidate's name is Ana. Their skills include: Python, Go, Rust. Their experience level is 2 years. Since you already know their skills (Python, Go, Rust), start by introducing yourself, then ask specific technical questions about their strongest skill or a challenging project they've worked on. Don't ask them to repeat their background. Keep responses under 25 words." ∧
    getInterviewPrompt "technical"
        (some { name := some "Ana", skills := some ["Python", "Go", "Rust"]
                experience := some "2 years" })
      ≠ getInterviewPrompt "technical"
        (some { name := some "Ana", skills := some ["Python", "Go"]
                experience := some "2 years" }) := by
  have h3 : getInterviewPrompt "technical"
      (some { name := some "Ana", skills := some ["Python", "Go", "Rust"]
              experience := some "2 years" })
      = "You are conducting a technical interview. The candidate's name is Ana. Their skills include: Python, Go, Rust. Their experience level is 2 years. Since you already know their skills (Python, Go, Rust), start by introducing yourself, then ask specific technical questions about their strongest skill or a challenging project they've worked on. Don't ask them to repeat their background. Keep responses under 25 words." :=
    rfl
  have h2 : getInterviewPrompt "technical"
      (some { name := some "Ana", skills := some ["Python", "Go"]
              experience := some "2 years" })
      = "You are conducting a technical interview. The candidate's name is Ana. Their skills include: Python, Go. Their experience level is 2 years. Since you already know their skills (Python, Go), start by introducing yourself, then ask specific technical questions about their strongest skill or a challenging project they've worked on. Don't ask them to repeat their background. Keep responses under 25 words." :=
    rfl
  refine ⟨h3, ?_⟩
  rw [h3, h2]
  simp

/-- C24 (amended): for each of the four interview types and every user profile, the
prompt returned by `getInterviewPrompt` interpolates the user's name (`the candidate`
when missing), all of the profile's recorded skill names joined by `, ` (`various
skills` when the profile has no skills map), and the experience (`not specified` when
missing); the technical and system-design prompts repeat the skill list. -/
theorem C24_prompt_interpolates_all_skills (name exp : Option String)
    (skills : Option (List String)) :
    getInterviewPrompt "technical"
        (some { name := name, skills := skills, experience := exp })
      = "You are conducting a technical interview. "
          ++ ("The candidate's name is " ++ orElse name "the candidate"
              ++ ". Their skills include: "
              ++ (skills.map (joinKeys ", ")).getD "various skills"
              ++ ". Their experience level is " ++ orElse exp "not specified" ++ ".")
          ++ " Since you already know their skills ("
          ++ (skills.map (joinKeys ", ")).getD "various skills"
          ++ "), start by introducing yourself, then ask specific technical questions about their strongest skill or a challenging project they've worked on. Don't ask them to repeat their background. Keep responses under 25 words." ∧
    getInterviewPrompt "behavioral"
        (some { name := name, skills := skills, experience := exp })
      = "You are conducting a behavioral interview. "
          ++ ("The candidate's name is " ++ orElse name "the candidate"
              ++ ". Their skills include: "
              ++ (skills.map (joinKeys ", ")).getD "various skills"
              ++ ". Their experience level is " ++ orElse exp "not specified" ++ ".")
          ++ " Since you know their background, introduce yourself then ask about a specific challenging situation they faced in their work. Don't ask them to repeat their experience. Keep responses brief." ∧
    getInterviewPrompt "hr"
        (some { name := name, skills := skills, experience := exp })
      = "You are an HR interviewer. "
          ++ ("The candidate's name is " ++ orElse name "the candidate"
              ++ ". Their skills include: "
              ++ (skills.map (joinKeys ", ")).getD "various skills"
              ++ ". Their experience level is " ++ orElse exp "not specified" ++ ".")
          ++ " Since you know their background, introduce yourself then ask about their motivation for this specific role and career goals. Don't ask them to repeat their experience. Keep responses conversational." ∧
    getInterviewPrompt "system-design"
        (some { name := name, skills := skills, experience := exp })
      = "You are conducting a system design interview. "
          ++ ("The candidate's name is " ++ orElse name "the candidate"
              ++ ". Their skills include: "
              ++ (skills.map (joinKeys ", ")).getD "various skills"
              ++ ". Their experience level is " ++ orElse exp "not specified" ++ ".")
          ++ " Since you know their skills ("
          ++ (skills.map (joinKeys ", ")).getD "various skills"
          ++ "), introduce yourself then present a system design problem matching their skill level. Don't ask about their background. Guide them through the process." ∧
    (∀ k1 k2 k3 : String, joinKeys ", " [k1, k2, k3] = k1 ++ ", " ++ k2 ++ ", " ++ k3) := by
  refine ⟨?_, ?_, ?_, ?_, ?_⟩
  · cases skills <;> simp [getInterviewPrompt]
  · cases skills <;> simp [getInterviewPrompt]
  · cases skills <;> simp [getInterviewPrompt]
  · cases skills <;> simp [getInterviewPrompt]
  · intro k1 k2 k3
    simp [joinKeys, String.intercalate, String.intercalate.go]

/-- C25: with the profile absent, `getInterviewPrompt` and `getGreeting` return, for
each interview type, a fixed string: no name, no profile sentence, and `various
skills` or `your skills` where a template mentions skills. -/
theorem C25_absent_profile_generic_wording :
    getInterviewPrompt "technical" none
      = "You are conducting a technical interview.  Since you already know their skills (various skills), start by introducing yourself, then ask specific technical questions about their strongest skill or a challenging project they've worked on. Don't ask them to repeat their background. Keep responses under 25 words." ∧
    getInterviewPrompt "behavioral" none
      = "You are conducting a behavioral interview.  Since you know their background, introduce yourself then ask about a specific challenging situation they faced in their work. Don't ask them to repeat their experience. Keep responses brief." ∧
    getInterviewPrompt "hr" none
      = "You are an HR interviewer.  Since you know their background, introduce yourself then ask about their motivation for this specific role and career goals. Don't ask them to repeat their experience. Keep responses conversational." ∧
    getInterviewPrompt "system-design" none
      = "You are conducting a system design interview.  Since you know their skills (various skills), introduce yourself then present a system design problem matching their skill level. Don't ask about their background. Guide them through the process." ∧
    getGreeting "technical" none
      = "Hello! I'm your technical interviewer. I can see you have experience with your skills. Let's dive into a technical challenge - can you walk me through a complex problem you solved using your skills?" ∧
    getGreeting "behavioral" none
      = "Hi! I'm conducting your behavioral interview. I see you have your skills in your profile. Can you tell me about a time when you had to learn a new technology quickly under pressure?" ∧
    getGreeting "hr" none
      = "Hello! I'm your HR interviewer. Looking at your background with your skills, what drives your passion for technology and where do you see yourself in 3 years?" ∧
    getGreeting "system-design" none
      = "Hi! I'm your system design interviewer. Given your experience with your skills, let's design a scalable web application. How would you approach building a social media platform?" := by
  refine ⟨rfl, rfl, rfl, rfl, rfl, rfl, rfl, rfl⟩

theorem truncate_intCast (v : ℤ) : JS.truncate (v : ℚ) = v := by
  unfold JS.truncate
  split_ifs
  · exact Int.floor_intCast v
  · exact Int.ceil_intCast v

theorem encodeSample_of_int16 (v : ℤ) (hlo : -32768 ≤ v) (hhi : v ≤ 32767) :
    encodeSample ((v : ℚ) / 32768) = v := by
  rw [encodeSample_eq_truncate]
  have hx : (v : ℚ) / 32768 * 32768 = v := by field_simp
  rw [hx]
  have q1 : (-32768 : ℚ) ≤ (v : ℚ) := by exact_mod_cast hlo
  have q2 : (v : ℚ) ≤ 32767 := by exact_mod_cast hhi
  have hmin : JS.Math.min 32767 (v : ℚ) = v := by
    unfold JS.Math.min
    split_ifs with h
    · exact le_antisymm h q2
    · rfl
  have hmax : JS.Math.max (-32768) (v : ℚ) = v := by
    unfold JS.Math.max
    rw [if_pos q1]
  rw [hmin, hmax]
  exact truncate_intCast v

/-- C27: for every signed 16-bit integer `v`, the capture encoding of the
playback-decoded value `v / 32768` is `v` again; so encoding the samples that
`playAudio` decodes from a buffer gives back the `Int16Array` of that buffer. -/
theorem C27_encode_after_decode_identity (v : ℤ) (hlo : -32768 ≤ v) (hhi : v ≤ 32767) :
    encodeSample ((v : ℚ) / 32768) = v ∧
    (∀ lo hi : Byte, encodeSample ((int16At lo hi : ℚ) / 32768) = int16At lo hi) ∧
    (∀ (audioData : Bytes) (samples : List ℚ), playAudio audioData = some samples →
      samples.map encodeSample = int16Array audioData) := by
  have hbyte : ∀ lo hi : Byte, encodeSample ((int16At lo hi : ℚ) / 32768) = int16At lo hi :=
    fun lo hi => encodeSample_of_int16 _ (int16At_bounds lo hi).1 (int16At_bounds lo hi).2
  refine ⟨encodeSample_of_int16 v hlo hhi, hbyte, ?_⟩
  intro audioData samples h
  unfold playAudio at h
  split_ifs at h with heven
  simp only [Option.some.injEq] at h
  subst h
  rw [List.map_map]
  have hall : ∀ l : Bytes,
      (int16Array l).map (encodeSample ∘ fun (v : ℤ) => (v : ℚ) / 32768) = int16Array l := by
    intro l
    induction l using int16Array.induct with
    | case1 lo hi rest ih =>
      simp only [int16Array, List.map_cons, Function.comp_apply, hbyte, ih]
    | case2 l hl =>
      have : int16Array l = [] := by
        unfold int16Array
        split
        · exact absurd rfl (hl _ _ _)
        · rfl
      rw [this]
      rfl
  exact hall audioData

/-- Witness of C27: the sample −12345. -/
theorem C27_encode_after_decode_identity_witness :
    encodeSample (((-12345 : ℤ) : ℚ) / 32768) = -12345 :=
  (C27_encode_after_decode_identity (-12345) (by decide) (by decide)).1

end DeepgramVoiceAgent

namespace FirebaseService

theorem updateDoc_cache (st st' : State) (userId : String) (updates : UserDoc → UserDoc)
    (ok : Bool) (h : updateDoc st userId updates ok = some st') : st'.cache = st.cache := by
  unfold updateDoc at h
  cases ok with
  | false => simp at h
  | true =>
    cases hd : mapGet st.db userId with
    | none => simp [hd] at h
    | some d =>
      simp only [hd, if_true, Option.some.injEq] at h
      rw [← h]

theorem incrementStreak_cache (st : State) (userId : String) (net : Net) (isoNow : String) :
    (incrementStreak st userId net isoNow).cache = st.cache := by
  unfold incrementStreak
  split
  · next st' h => exact updateDoc_cache _ _ _ _ _ h
  · rfl

theorem updateSkillProgress_cache (st : State) (userId skill : String) (progress : ℚ)
    (net : Net) : (updateSkillProgress st userId skill progress net).cache = st.cache := by
  unfold updateSkillProgress
  split
  · next st' h => exact updateDoc_cache _ _ _ _ _ h
  · rfl

theorem addTask_cache (st : State) (userId : String) (task : NewTask) (net : Net) (now : Int)
    (isoNow : String) : (addTask st userId task net now isoNow).cache = st.cache := by
  unfold addTask
  split_ifs
  · split
    · simp only []
      split
      · next st' h => exact updateDoc_cache _ _ _ _ _ h
      · rfl
    · rfl
  · rfl

theorem completeTask_cache (st : State) (userId : String) (taskId : Int) (net : Net) :
    (completeTask st userId taskId net).cache = st.cache := by
  unfold completeTask
  split_ifs
  · split
    · split
      · simp only []
        split
        · next st' h => exact updateDoc_cache _ _ _ _ _ h
        · rfl
      · rfl
    · rfl
  · rfl

theorem getUserStats_of_valid (st : State) (userId : String) (net : Net) (now₁ now₂ : Int)
    (isoNow : String) (entry : CacheEntry)
    (hentry : mapGet st.cache (getCacheKey userId "stats") = some entry)
    (hyoung : now₁ - entry.timestamp < 30000) :
    getUserStats st userId net now₁ now₂ isoNow = (entry.data, st) := by
  unfold getUserStats
  rw [hentry]
  simp [isValidCache, cacheTimeout, hyoung]

theorem mapGet_mapDelete_self {β : Type} (m : List (String × β)) (key : String) :
    mapGet (mapDelete m key) key = none := by
  induction m with
  | nil => rfl
  | cons p rest ih =>
    unfold mapDelete mapGet at ih ⊢
    by_cases h : p.1 = key
    · simp only [List.filter, h, bne_self_eq_false]
      exact ih
    · have hb : (p.1 != key) = true := by simpa using h
      have hk : (key == p.1) = false := by
        simpa using fun hkp : key = p.1 => h hkp.symm
      simp only [List.filter, hb]
      rw [show p = (p.1, p.2) from rfl, List.lookup, hk]
      exact ih

theorem mapGet_mapDelete_of_none {β : Type} (m : List (String × β)) (key other : String)
    (h : mapGet m key = none) : mapGet (mapDelete m other) key = none := by
  induction m with
  | nil => rfl
  | cons p rest ih =>
    unfold mapGet at h
    unfold mapDelete mapGet at ih ⊢
    rw [show p = (p.1, p.2) from rfl, List.lookup] at h
    cases hk : (key == p.1) with
    | true => simp [hk] at h
    | false =>
      simp only [hk] at h
      by_cases hb : (p.1 != other) = true
      · simp only [List.filter, hb]
        rw [show p = (p.1, p.2) from rfl, List.lookup, hk]
        exact ih h
      · have hb' : (p.1 != other) = false := by simpa using hb
        simp only [List.filter, hb']
        exact ih h

/-- C28: `completeTask`, `updateSkillProgress`, `addTask` and `incrementStreak` leave
the cache as it is, so a `getUserStats` made while the user's entry is younger than
30000 ms returns the cached, pre-write data; `updateUserStats` is the write that
deletes the entry after a successful update, so the next `getUserStats` asks the
store. -/
theorem C28_only_updateUserStats_invalidates (st : State) (userId : String)
    (net netAfter : Net) (entry : CacheEntry) (now₁ now₂ : Int) (isoNow : String)
    (hentry : mapGet st.cache (getCacheKey userId "stats") = some entry)
    (hyoung : now₁ - entry.timestamp < 30000) :
    (∀ taskId : Int,
      (completeTask st userId taskId net).cache = st.cache ∧
      (getUserStats (completeTask st userId taskId net) userId netAfter now₁ now₂ isoNow).1
        = entry.data) ∧
    (∀ (skill : String) (progress : ℚ),
      (updateSkillProgress st userId skill progress net).cache = st.cache ∧
      (getUserStats (updateSkillProgress st userId skill progress net) userId netAfter
        now₁ now₂ isoNow).1 = entry.data) ∧
    (∀ (task : NewTask) (now : Int) (iso : String),
      (addTask st userId task net now iso).cache = st.cache ∧
      (getUserStats (addTask st userId task net now iso) userId netAfter now₁ now₂ isoNow).1
        = entry.data) ∧
    ((incrementStreak st userId net isoNow).cache = st.cache ∧
      (getUserStats (incrementStreak st userId net isoNow) userId netAfter now₁ now₂ isoNow).1
        = entry.data) ∧
    (∀ (updates : UserDoc → UserDoc) (d : UserDoc),
      net.updateDocOk = true → mapGet st.db userId = some d →
      mapGet (updateUserStats st userId updates net).cache (getCacheKey userId "stats") = none ∧
      getUserStats (updateUserStats st userId updates net) userId netAfter now₁ now₂ isoNow
        = fetchUserStats (updateUserStats st userId updates net) userId netAfter now₂
            isoNow) := by
  have key : ∀ st' : State, st'.cache = st.cache →
      (getUserStats st' userId netAfter now₁ now₂ isoNow).1 = entry.data := by
    intro st' hc
    rw [getUserStats_of_valid st' userId netAfter now₁ now₂ isoNow entry (by rw [hc]; exact hentry)
      hyoung]
  refine ⟨?_, ?_, ?_, ?_, ?_⟩
  · intro taskId
    exact ⟨completeTask_cache _ _ _ _, key _ (completeTask_cache _ _ _ _)⟩
  · intro skill progress
    exact ⟨updateSkillProgress_cache _ _ _ _ _, key _ (updateSkillProgress_cache _ _ _ _ _)⟩
  · intro task now iso
    exact ⟨addTask_cache _ _ _ _ _ _, key _ (addTask_cache _ _ _ _ _ _)⟩
  · exact ⟨incrementStreak_cache _ _ _ _, key _ (incrementStreak_cache _ _ _ _)⟩
  · intro updates d hok hd
    have hnone : mapGet (updateUserStats st userId updates net).cache
        (getCacheKey userId "stats") = none := by
      simp only [updateUserStats, updateDoc, hok, hd, if_true]
      exact mapGet_mapDelete_of_none _ _ _ (mapGet_mapDelete_of_none _ _ _
        (mapGet_mapDelete_self _ _))
    refine ⟨hnone, ?_⟩
    unfold getUserStats
    rw [hnone]

/-- Witness of C28: the cache holds, since time 1000, the document of `u1` with task 7
not completed; `completeTask` marks it completed in the store, and a `getUserStats` at
time 5000 still returns the cached document. -/
theorem C28_only_updateUserStats_invalidates_witness :
    (mapGet
        (completeTask
          { cache :=
              [("u1_stats",
                { data :=
                    { skillsMastered := 0, totalSkills := 0, daysStreak := 1
                      interviewsPassed := 0, jobReadiness := 25, skills := none
                      tasks := some
                        [{ id := 7, title := "Build a CLI", type := "project"
                           duration := "1hour", completed := false, aiGenerated := some true
                           createdAt := none }]
                      lastActive := "2025-01-01", skillsSetup := true
                      onboardingCompleted := true }
                  timestamp := 1000 })]
            db :=
              [("u1",
                { skillsMastered := 0, totalSkills := 0, daysStreak := 1
                  interviewsPassed := 0, jobReadiness := 25, skills := none
                  tasks := some
                    [{ id := 7, title := "Build a CLI", type := "project"
                       duration := "1hour", completed := false, aiGenerated := some true
                       createdAt := none }]
                  lastActive := "2025-01-01", skillsSetup := true
                  onboardingCompleted := true })] }
          "u1" 7 { getDocOk := true, setDocOk := true, updateDocOk := true }).db
        "u1").bind UserDoc.tasks
      = some
          [{ id := 7, title := "Build a CLI", type := "project", duration := "1hour"
             completed := true, aiGenerated := some true, createdAt := none }] ∧
    (getUserStats
        (completeTask
          { cache :=
              [("u1_stats",
                { data :=
                    { skillsMastered := 0, totalSkills := 0, daysStreak := 1
                      interviewsPassed := 0, jobReadiness := 25, skills := none
                      tasks := some
                        [{ id := 7, title := "Build a CLI", type := "project"
                           duration := "1hour", completed := false, aiGenerated := some true
                           createdAt := none }]
                      lastActive := "2025-01-01", skillsSetup := true
                      onboardingCompleted := true }
                  timestamp := 1000 })]
            db :=
              [("u1",
                { skillsMastered := 0, totalSkills := 0, daysStreak := 1
                  interviewsPassed := 0, jobReadiness := 25, skills := none
                  tasks := some
                    [{ id := 7, title := "Build a CLI", type := "project"
                       duration := "1hour", completed := false, aiGenerated := some true
                       createdAt := none }]
                  lastActive := "2025-01-01", skillsSetup := true
                  onboardingCompleted := true })] }
          "u1" 7 { getDocOk := true, setDocOk := true, updateDocOk := true })
        "u1" { getDocOk := true, setDocOk := true, updateDocOk := true } 5000 5000
        "2025-01-02").1.tasks
      = some
          [{ id := 7, title := "Build a CLI", type := "project", duration := "1hour"
             completed := false, aiGenerated := some true, createdAt := none }] :=
  ⟨rfl,
   congrArg UserDoc.tasks
    ((C28_only_updateUserStats_invalidates
      { cache :=
          [("u1_stats",
            { data :=
                { skillsMastered := 0, totalSkills := 0, daysStreak := 1
                  interviewsPassed := 0, jobReadiness := 25, skills := none
                  tasks := some
                    [{ id := 7, title := "Build a CLI", type := "project"
                       duration := "1hour", completed := false, aiGenerated := some true
                       createdAt := none }]
                  lastActive := "2025-01-01", skillsSetup := true
                  onboardingCompleted := true }
              timestamp := 1000 })]
        db :=
          [("u1",
            { skillsMastered := 0, totalSkills := 0, daysStreak := 1
              interviewsPassed := 0, jobReadiness := 25, skills := none
              tasks := some
                [{ id := 7, title := "Build a CLI", type := "project"
                   duration := "1hour", completed := false, aiGenerated := some true
                   createdAt := none }]
              lastActive := "2025-01-01", skillsSetup := true
              onboardingCompleted := true })] }
      "u1" { getDocOk := true, setDocOk := true, updateDocOk := true }
      { getDocOk := true, setDocOk := true, updateDocOk := true }
      { data :=
          { skillsMastered := 0, totalSkills := 0, daysStreak := 1
            interviewsPassed := 0, jobReadiness := 25, skills := none
            tasks := some
              [{ id := 7, title := "Build a CLI", type := "project"
                 duration := "1hour", completed := false, aiGenerated := some true
                 createdAt := none }]
            lastActive := "2025-01-01", skillsSetup := true
            onboardingCompleted := true }
        timestamp := 1000 }
      5000 5000 "2025-01-02" rfl (by decide)).1 7).2⟩

theorem parseLine_some (toLowerCase : String → String) (clock : Nat → Int) (index : Nat)
    (line : List Char) (task : Task) (h : parseLine toLowerCase clock index line = some task) :
    task.completed = false ∧ task.aiGenerated = some true ∧
    ∃ title type duration rest,
      (splitOn '|' line).map trim = title :: type :: duration :: rest ∧
      title ≠ [] ∧ type ≠ [] ∧ duration ≠ [] := by
  unfold parseLine at h
  split at h
  · next title type duration rest heq =>
    split_ifs at h with hv
    simp only [Option.some.injEq] at h
    subst h
    exact ⟨rfl, rfl, title, type, duration, rest, heq, hv.1, hv.2.1, hv.2.2⟩
  · simp at h

theorem collectTasks_spec (toLowerCase : String → String) (clock : Nat → Int)
    (lines : List (List Char)) :
    ∀ index : Nat,
      (collectTasks toLowerCase clock index lines).length ≤ lines.length ∧
      (∀ task ∈ collectTasks toLowerCase clock index lines,
        ∃ i line, lines[i]? = some line ∧
          parseLine toLowerCase clock (index + i) line = some task) ∧
      ((∀ i line, lines[i]? = some line →
          parseLine toLowerCase clock (index + i) line = none) →
        collectTasks toLowerCase clock index lines = []) := by
  induction lines with
  | nil =>
    intro index
    simp [collectTasks]
  | cons line rest ih =>
    intro index
    obtain ⟨ih1, ih2, ih3⟩ := ih (index + 1)
    cases hp : parseLine toLowerCase clock index line with
    | none =>
      simp only [collectTasks, hp, List.length_cons]
      refine ⟨by omega, ?_, ?_⟩
      · intro task ht
        obtain ⟨i, l, hl, hpl⟩ := ih2 task ht
        refine ⟨i + 1, l, by simpa using hl, ?_⟩
        rw [← hpl]
        congr 1
        omega
      · intro hall
        apply ih3
        intro i l hl
        have := hall (i + 1) l (by simpa using hl)
        rw [← this]
        congr 1
        omega
    | some t =>
      simp only [collectTasks, hp, List.length_cons]
      refine ⟨by omega, ?_, ?_⟩
      · intro task ht
        rcases List.mem_cons.mp ht with heq | hmem
        · subst heq
          exact ⟨0, line, by simp, by simpa using hp⟩
        · obtain ⟨i, l, hl, hpl⟩ := ih2 task hmem
          refine ⟨i + 1, l, by simpa using hl, ?_⟩
          rw [← hpl]
          congr 1
          omega
      · intro hall
        have := hall 0 line (by simp)
        simp only [Nat.add_zero] at this
        rw [hp] at this
        cases this

theorem parseAITasks_shape_core (toLowerCase : String → String) (clock : Nat → Int)
    (response : String) :
    parseAITasks toLowerCase clock response ≠ [] ∧
    (parseAITasks toLowerCase clock response).length ≤ 5 ∧
    (∀ task ∈ parseAITasks toLowerCase clock response,
      task.completed = false ∧ task.aiGenerated = some true) ∧
    (parseAITasks toLowerCase clock response = getFallbackTasks clock ∨
      ∀ task ∈ parseAITasks toLowerCase clock response,
        ∃ (index : Nat) (line : List Char),
          index < 5 ∧ (candidateLines response)[index]? = some line ∧
          parseLine toLowerCase clock index line = some task ∧
          ∃ title type duration rest,
            (splitOn '|' line).map trim = title :: type :: duration :: rest ∧
            title ≠ [] ∧ type ≠ [] ∧ duration ≠ []) ∧
    ((∀ (index : Nat) (line : List Char), (candidateLines response)[index]? = some line →
        ∀ title type duration rest,
          (splitOn '|' line).map trim = title :: type :: duration :: rest →
          ¬ (title ≠ [] ∧ type ≠ [] ∧ duration ≠ [])) →
      parseAITasks toLowerCase clock response = getFallbackTasks clock) ∧
    (getFallbackTasks clock).length = 5 := by
  obtain ⟨hlen, hmem, hnone⟩ := collectTasks_spec toLowerCase clock (candidateLines response) 0
  have hcand : (candidateLines response).length ≤ 5 := by
    unfold candidateLines
    exact List.length_take_le _ _
  have hfb : ∀ task ∈ getFallbackTasks clock,
      task.completed = false ∧ task.aiGenerated = some true := by
    intro task ht
    simp only [getFallbackTasks, List.mem_cons, List.mem_singleton, List.not_mem_nil,
      or_false] at ht
    rcases ht with h | h | h | h | h <;> subst h <;> exact ⟨rfl, rfl⟩
  by_cases hpos : (collectTasks toLowerCase clock 0 (candidateLines response)).length > 0
  · have hr : parseAITasks toLowerCase clock response
        = collectTasks toLowerCase clock 0 (candidateLines response) := by
      simp only [parseAITasks, if_pos hpos]
    rw [hr]
    refine ⟨?_, by omega, ?_, Or.inr ?_, ?_, rfl⟩
    · intro h
      rw [h] at hpos
      simp at hpos
    · intro task ht
      obtain ⟨i, line, hl, hp⟩ := hmem task ht
      exact ⟨(parseLine_some _ _ _ _ _ hp).1, (parseLine_some _ _ _ _ _ hp).2.1⟩
    · intro task ht
      obtain ⟨i, line, hl, hp⟩ := hmem task ht
      have hi : i < (candidateLines response).length := by
        by_contra hge
        rw [List.getElem?_eq_none (by omega)] at hl
        cases hl
      simp only [Nat.zero_add] at hp
      exact ⟨i, line, by omega, hl, hp, (parseLine_some _ _ _ _ _ hp).2.2⟩
    · intro hall
      exfalso
      have hex : ∃ task, task ∈ collectTasks toLowerCase clock 0 (candidateLines response) := by
        cases hc : collectTasks toLowerCase clock 0 (candidateLines response) with
        | nil => rw [hc] at hpos; simp at hpos
        | cons t ts => exact ⟨t, List.mem_cons_self _ _⟩
      obtain ⟨task, ht⟩ := hex
      obtain ⟨i, line, hl, hp⟩ := hmem task ht
      obtain ⟨_, _, title, type, duration, rest, heq, hv⟩ := parseLine_some _ _ _ _ _ hp
      exact hall i line hl title type duration rest heq hv
  · have hr : parseAITasks toLowerCase clock response = getFallbackTasks clock := by
      simp only [parseAITasks, if_neg hpos]
    rw [hr]
    refine ⟨by simp [getFallbackTasks], by simp [getFallbackTasks], hfb, Or.inl rfl,
      fun _ => rfl, rfl⟩

theorem parseLine_of_valid (toLowerCase : String → String) (clock : Nat → Int) (index : Nat)
    (line title type duration : List Char) (rest : List (List Char))
    (hfields : (splitOn '|' line).map trim = title :: type :: duration :: rest)
    (ht : title ≠ []) (hty : type ≠ []) (hd : duration ≠ []) :
    parseLine toLowerCase clock index line
      = some { id := clock index + index
               title := String.mk (removeNumbering title)
               type := toLowerCase (String.mk type)
               duration := String.mk duration
               completed := false
               aiGenerated := some true
               createdAt := none } := by
  unfold parseLine
  rw [hfields]
  simp only []
  rw [if_pos ⟨ht, hty, hd⟩]

theorem collectTasks_mem_of_parse (toLowerCase : String → String) (clock : Nat → Int)
    (lines : List (List Char)) :
    ∀ (index i : Nat) (line : List Char) (task : Task), lines[i]? = some line →
      parseLine toLowerCase clock (index + i) line = some task →
      task ∈ collectTasks toLowerCase clock index lines := by
  induction lines with
  | nil => intro index i line task hl; simp at hl
  | cons l rest ih =>
    intro index i line task hl hp
    cases i with
    | zero =>
      simp only [List.getElem?_cons_zero, Option.some.injEq] at hl
      subst hl
      simp only [Nat.add_zero] at hp
      simp only [collectTasks, hp]
      exact List.mem_cons_self _ _
    | succ j =>
      simp only [List.getElem?_cons_succ] at hl
      have hp' : parseLine toLowerCase clock (index + 1 + j) line = some task := by
        rw [← hp]
        congr 1
        omega
      have hmem := ih (index + 1) j line task hl hp'
      simp only [collectTasks]
      cases parseLine toLowerCase clock index l with
      | none => exact hmem
      | some t => exact List.mem_cons_of_mem _ hmem

theorem collectTasks_eq_filterMap (toLowerCase : String → String) (clock : Nat → Int)
    (lines : List (List Char)) :
    ∀ index : Nat,
      collectTasks toLowerCase clock index lines
        = (List.enumFrom index lines).filterMap
            (fun p => parseLine toLowerCase clock p.1 p.2) := by
  induction lines with
  | nil => intro index; rfl
  | cons l rest ih =>
    intro index
    simp only [collectTasks, List.enumFrom, List.filterMap_cons]
    cases parseLine toLowerCase clock index l with
    | none => exact ih (index + 1)
    | some t =>
      simp only []
      rw [ih (index + 1)]

/-- C29: for every response string `parseAITasks` returns a non-empty list of at most
five tasks, each with `completed = false` and `aiGenerated = true`.  Either the result
is the five fixed fallback tasks, or every task of it is the one built from one of the
first five lines containing the separator, a line whose first three fields are all
non-empty after trimming; when none of those lines is such a line the result is the
fallback tasks.  Conversely every such line yields its task: the task with that line's
title (numbering removed), lower-cased type and duration is in the result, and as soon
as there is one such line the result is exactly the tasks of those lines, in the order
of the lines. -/
theorem C29_parseAITasks_shape (toLowerCase : String → String) (clock : Nat → Int)
    (response : String) :
    parseAITasks toLowerCase clock response ≠ [] ∧
    (parseAITasks toLowerCase clock response).length ≤ 5 ∧
    (∀ task ∈ parseAITasks toLowerCase clock response,
      task.completed = false ∧ task.aiGenerated = some true) ∧
    (parseAITasks toLowerCase clock response = getFallbackTasks clock ∨
      ∀ task ∈ parseAITasks toLowerCase clock response,
        ∃ (index : Nat) (line : List Char),
          index < 5 ∧ (candidateLines response)[index]? = some line ∧
          parseLine toLowerCase clock index line = some task ∧
          ∃ title type duration rest,
            (splitOn '|' line).map trim = title :: type :: duration :: rest ∧
            title ≠ [] ∧ type ≠ [] ∧ duration ≠ []) ∧
    ((∀ (index : Nat) (line : List Char), (candidateLines response)[index]? = some line →
        ∀ title type duration rest,
          (splitOn '|' line).map trim = title :: type :: duration :: rest →
          ¬ (title ≠ [] ∧ type ≠ [] ∧ duration ≠ [])) →
      parseAITasks toLowerCase clock response = getFallbackTasks clock) ∧
    (getFallbackTasks clock).length = 5 ∧
    (∀ (index : Nat) (line title type duration : List Char) (rest : List (List Char)),
      (candidateLines response)[index]? = some line →
      (splitOn '|' line).map trim = title :: type :: duration :: rest →
      title ≠ [] → type ≠ [] → duration ≠ [] →
      ({ id := clock index + index
         title := String.mk (removeNumbering title)
         type := toLowerCase (String.mk type)
         duration := String.mk duration
         completed := false
         aiGenerated := some true
         createdAt := none } : Task) ∈ parseAITasks toLowerCase clock response ∧
      parseAITasks toLowerCase clock response
        = (List.enumFrom 0 (candidateLines response)).filterMap
            (fun p => parseLine toLowerCase clock p.1 p.2)) := by
  obtain ⟨c1, c2, c3, c4, c5, c6⟩ := parseAITasks_shape_core toLowerCase clock response
  refine ⟨c1, c2, c3, c4, c5, c6, ?_⟩
  intro index line title type duration rest hl hfields ht hty hd
  have hp := parseLine_of_valid toLowerCase clock index line title type duration rest hfields
    ht hty hd
  have hmem := collectTasks_mem_of_parse toLowerCase clock (candidateLines response) 0 index
    line _ hl (by rw [Nat.zero_add]; exact hp)
  have hpos : (collectTasks toLowerCase clock 0 (candidateLines response)).length > 0 :=
    List.length_pos_of_mem hmem
  have hr : parseAITasks toLowerCase clock response
      = collectTasks toLowerCase clock 0 (candidateLines response) := by
    simp only [parseAITasks, if_pos hpos]
  rw [hr]
  exact ⟨hmem, collectTasks_eq_filterMap toLowerCase clock (candidateLines response) 0⟩

/-- Witness of C29: in a response whose first line is `1. Build app | Project | 2hours`
that line yields the task `Build app`, and the result is that single task; a response
without any separator gives the fallback tasks. -/
theorem C29_parseAITasks_shape_witness :
    (({ id := 1000 + (0 : Nat), title := "Build app", type := "project", duration := "2hours"
        completed := false, aiGenerated := some true, createdAt := none } : Task)
        ∈ parseAITasks (fun t => String.mk (t.toList.map Char.toLower)) (fun _ => 1000)
            "1. Build app | Project | 2hours\nThanks!" ∧
      parseAITasks (fun t => String.mk (t.toList.map Char.toLower)) (fun _ => 1000)
          "1. Build app | Project | 2hours\nThanks!"
        = [{ id := 1000, title := "Build app", type := "project", duration := "2hours"
             completed := false, aiGenerated := some true, createdAt := none }]) ∧
    parseAITasks String.toLower (fun _ => 1000) "no tasks today"
      = getFallbackTasks (fun _ => 1000) :=
  ⟨(C29_parseAITasks_shape (fun t => String.mk (t.toList.map Char.toLower)) (fun _ => 1000)
      "1. Build app | Project | 2hours\nThanks!").2.2.2.2.2.2 0
      "1. Build app | Project | 2hours".toList "1. Build app".toList "Project".toList
      "2hours".toList [] (by decide) (by decide) (by decide) (by decide) (by decide),
   (C29_parseAITasks_shape String.toLower (fun _ => 1000) "no tasks today").2.2.2.2.1
    (by
      intro index line hl
      have hc : candidateLines "no tasks today" = [] := by decide
      rw [hc] at hl
      simp at hl)⟩

end FirebaseService

namespace Routing

open FirebaseService

/-- C30: for every user-data record (and also when it cannot be fetched), the page that
`handleGoogleSignIn` navigates to after sign-in is `/onboarding`, `/skill-setup` or
`/dashboard`, and the guards of that page do not redirect the same record; the
`/dashboard` guard and the `/skill-setup` guard never both redirect for the same
record. -/
theorem C30_login_destination_is_stable (uid : String) (currentUser : Option String)
    (fetched : Except String (Option UserDoc)) :
    (∃ dest, handleGoogleSignIn (Except.ok uid) fetched = some dest ∧
      (dest = Route.onboarding ∨ dest = Route.skillSetup ∨ dest = Route.dashboard) ∧
      routeGuard dest (some uid) fetched = none) ∧
    ¬ (SkillSetupRoute currentUser fetched = some Route.skillSetup ∧
       SetupCompleteRoute currentUser fetched = some Route.dashboard) := by
  constructor
  · cases fetched with
    | error e =>
      exact ⟨Route.onboarding, rfl, Or.inl rfl, rfl⟩
    | ok userData =>
      cases h1 : onboardingCompleted userData with
      | false =>
        refine ⟨Route.onboarding, by simp [handleGoogleSignIn, h1], Or.inl rfl, ?_⟩
        simp [routeGuard, ProtectedRoute, SetupCompleteRoute, h1]
      | true =>
        cases h2 : skillsSetup userData with
        | false =>
          refine ⟨Route.skillSetup, by simp [handleGoogleSignIn, h1, h2], Or.inr (Or.inl rfl), ?_⟩
          simp [routeGuard, ProtectedRoute, SetupCompleteRoute, h1, h2]
        | true =>
          cases h3 : hasSkills userData with
          | false =>
            refine ⟨Route.skillSetup, by simp [handleGoogleSignIn, h1, h2, h3],
              Or.inr (Or.inl rfl), ?_⟩
            simp [routeGuard, ProtectedRoute, SetupCompleteRoute, h1, h2, h3]
          | true =>
            refine ⟨Route.dashboard, by simp [handleGoogleSignIn, h1, h2, h3],
              Or.inr (Or.inr rfl), ?_⟩
            simp [routeGuard, ProtectedRoute, SkillSetupRoute, h1, h2]
  · intro h
    obtain ⟨ha, hb⟩ := h
    cases currentUser with
    | none => simp [SkillSetupRoute] at ha
    | some u =>
      cases fetched with
      | error e => simp [SkillSetupRoute] at ha
      | ok userData =>
        cases h2 : skillsSetup userData with
        | false => simp [SetupCompleteRoute, h2] at hb
        | true => simp [SkillSetupRoute, h2] at ha

end Routing
